import Mathlib

set_option allowUnsafeReducibility true in
attribute [semireducible] Rat.mul Rat.inv Rat.add Rat.sub Rat.ofScientific

/-!
# Verification of the chunked content generation pipeline

Shallow embedding of the core of `apps/api/services/chunked_content_generator.py`
and `apps/api/services/adaptive_chunk_sizer.py` (repository Aryaman19/ai-tutor).

Python values flowing through the Response Recovery Parser are modelled by the
inductive type `PyVal`; `json.loads` is modelled by a fuel-indexed recursive
descent parser; Python floats are modelled by exact rationals `ℚ`; raising an
exception is modelled by `Except.error` carrying the exception class.
-/

namespace AiTutor

/-- A Python value as it can appear in a decoded JSON payload. -/
inductive PyVal where
  | none
  | bool (b : Bool)
  | int (n : ℤ)
  | float (q : ℚ)
  | str (s : List Char)
  | list (xs : List PyVal)
  | dict (kvs : List (List Char × PyVal))

/-- Exception classes that the embedded code can raise. -/
inductive PyErr where
  | typeError
  | attributeError
  | zeroDivisionError
  | jsonDecodeError
deriving DecidableEq

/-- The characters `{`, `}` and the backtick, kept as named constants. -/
def lbrace : Char := Char.ofNat 123

def rbrace : Char := Char.ofNat 125

def btick : Char := Char.ofNat 96

/-- JSON whitespace accepted between tokens by `json.loads`. -/
def isJsonWs (c : Char) : Bool :=
  c == ' ' || c == '\t' || c == '\n' || c == '\r'

/-- ASCII whitespace for Python's `str.strip` and the regex class `\s`. -/
def isPySpace (c : Char) : Bool :=
  c == ' ' || c == '\t' || c == '\n' || c == '\r' || c == '\x0b' || c == '\x0c'

def jsonSkipWs (s : List Char) : List Char := s.dropWhile isJsonWs

/-- Membership test of a key among the entries of a decoded Python dict. -/
def dictHasKey (kvs : List (List Char × PyVal)) (k : List Char) : Bool :=
  kvs.any (fun kv => decide (kv.1 = k))

/-- First-match lookup in a decoded Python dict. -/
def dictLookup (kvs : List (List Char × PyVal)) (k : List Char) : Option PyVal :=
  (kvs.find? (fun kv => decide (kv.1 = k))).map (fun kv => kv.2)

/-- `d.get(k, dflt)` on a decoded Python dict. -/
def dictGetD (kvs : List (List Char × PyVal)) (k : List Char) (dflt : PyVal) : PyVal :=
  (dictLookup kvs k).getD dflt

/-- `d[k] = v` on a decoded Python dict: replace in place, else append. -/
def dictSetKey (kvs : List (List Char × PyVal)) (k : List Char) (v : PyVal) :
    List (List Char × PyVal) :=
  if dictHasKey kvs k then
    kvs.map (fun kv => if kv.1 = k then (k, v) else kv)
  else
    kvs ++ [(k, v)]

/-- Hexadecimal digit value, for `\uXXXX` string escapes. -/
def hexVal (c : Char) : Option ℕ :=
  if c.isDigit then Option.some (c.toNat - 48)
  else if 'a' ≤ c && c ≤ 'f' then Option.some (c.toNat - 87)
  else if 'A' ≤ c && c ≤ 'F' then Option.some (c.toNat - 55)
  else Option.none

/-- Body of a JSON string literal after the opening quote: returns the decoded
characters and the remaining input past the closing quote. -/
def jsonStringBody : ℕ → List Char → Option (List Char × List Char)
  | 0, _ => Option.none
  | _, [] => Option.none
  | fuel + 1, c :: r =>
    if c == '"' then Option.some ([], r)
    else if c == '\\' then
      match r with
      | [] => Option.none
      | e :: r2 =>
        if e == '"' || e == '\\' || e == '/' then
          (jsonStringBody fuel r2).map (fun p => (e :: p.1, p.2))
        else if e == 'b' then
          (jsonStringBody fuel r2).map (fun p => (Char.ofNat 8 :: p.1, p.2))
        else if e == 'f' then
          (jsonStringBody fuel r2).map (fun p => (Char.ofNat 12 :: p.1, p.2))
        else if e == 'n' then
          (jsonStringBody fuel r2).map (fun p => ('\n' :: p.1, p.2))
        else if e == 'r' then
          (jsonStringBody fuel r2).map (fun p => ('\r' :: p.1, p.2))
        else if e == 't' then
          (jsonStringBody fuel r2).map (fun p => ('\t' :: p.1, p.2))
        else if e == 'u' then
          match r2 with
          | h1 :: h2 :: h3 :: h4 :: r3 =>
            match hexVal h1, hexVal h2, hexVal h3, hexVal h4 with
            | Option.some a, Option.some b, Option.some c2, Option.some d =>
              (jsonStringBody fuel r3).map
                (fun p => (Char.ofNat (((a * 16 + b) * 16 + c2) * 16 + d) :: p.1, p.2))
            | _, _, _, _ => Option.none
          | _ => Option.none
        else Option.none
    else if c.toNat < 32 then Option.none
    else (jsonStringBody fuel r).map (fun p => (c :: p.1, p.2))

/-- Digits of a decimal literal interpreted as a natural number. -/
def digitsToNat (ds : List Char) : ℕ :=
  ds.foldl (fun acc c => acc * 10 + (c.toNat - 48)) 0

/-- A JSON number token (int or float, in the sense of Python's `json`). -/
def jsonNumber (s : List Char) : Option (PyVal × List Char) :=
  let (neg, s1) := match s with
    | '-' :: r => (true, r)
    | _ => (false, s)
  let intPart : Option (List Char × List Char) := match s1 with
    | '0' :: r => Option.some (['0'], r)
    | c :: _ =>
      if c.isDigit then Option.some (s1.takeWhile Char.isDigit, s1.dropWhile Char.isDigit)
      else Option.none
    | [] => Option.none
  match intPart with
  | Option.none => Option.none
  | Option.some (ids, r1) =>
    let (fds, r2, hasFrac) : List Char × List Char × Bool := match r1 with
      | '.' :: rf =>
        let ds := rf.takeWhile Char.isDigit
        (ds, rf.dropWhile Char.isDigit, true)
      | _ => ([], r1, false)
    if hasFrac && fds.isEmpty then Option.none
    else
      let (eds, r3, hasExp, expNeg) : List Char × List Char × Bool × Bool := match r2 with
        | 'e' :: re | 'E' :: re =>
          match re with
          | '+' :: re2 => (re2.takeWhile Char.isDigit, re2.dropWhile Char.isDigit, true, false)
          | '-' :: re2 => (re2.takeWhile Char.isDigit, re2.dropWhile Char.isDigit, true, true)
          | _ => (re.takeWhile Char.isDigit, re.dropWhile Char.isDigit, true, false)
        | _ => ([], r2, false, false)
      if hasExp && eds.isEmpty then Option.none
      else
        let mantissa : ℚ := (digitsToNat (ids ++ fds) : ℚ) / ((10 : ℚ) ^ fds.length)
        let scaled : ℚ :=
          if hasExp then
            if expNeg then mantissa / ((10 : ℚ) ^ digitsToNat eds)
            else mantissa * ((10 : ℚ) ^ digitsToNat eds)
          else mantissa
        let signed : ℚ := if neg then -scaled else scaled
        if hasFrac || hasExp then Option.some (PyVal.float signed, r3)
        else
          let n : ℤ := (digitsToNat ids : ℤ)
          Option.some (PyVal.int (if neg then -n else n), r3)

/-- Expect a literal tail such as `rue` of `true`; used for keyword tokens. -/
def expectLit (lit : List Char) (s : List Char) (v : PyVal) : Option (PyVal × List Char) :=
  if lit.isPrefixOf s then Option.some (v, s.drop lit.length) else Option.none

mutual

/-- One JSON value, fuel-indexed recursive descent mirroring `json.loads`. -/
def jsonValue : ℕ → List Char → Option (PyVal × List Char)
  | 0, _ => Option.none
  | fuel + 1, s =>
    match jsonSkipWs s with
    | [] => Option.none
    | c :: r =>
      if c == '"' then
        match jsonStringBody (r.length + 1) r with
        | Option.some (cs, rest) => Option.some (PyVal.str cs, rest)
        | Option.none => Option.none
      else if c == lbrace then jsonObject fuel r
      else if c == '[' then jsonItems fuel r []
      else if c == 't' then expectLit ['r', 'u', 'e'] r (PyVal.bool true)
      else if c == 'f' then expectLit ['a', 'l', 's', 'e'] r (PyVal.bool false)
      else if c == 'n' then expectLit ['u', 'l', 'l'] r PyVal.none
      else jsonNumber (c :: r)

/-- The members of a JSON object after the opening brace. -/
def jsonObject : ℕ → List Char → Option (PyVal × List Char)
  | 0, _ => Option.none
  | fuel + 1, s =>
    match jsonSkipWs s with
    | [] => Option.none
    | c :: r =>
      if c == rbrace then Option.some (PyVal.dict [], r)
      else jsonMembers fuel (c :: r) []

/-- A nonempty comma-separated member list of a JSON object. -/
def jsonMembers : ℕ → List Char → List (List Char × PyVal) →
    Option (PyVal × List Char)
  | 0, _, _ => Option.none
  | fuel + 1, s, acc =>
    match jsonSkipWs s with
    | '"' :: r =>
      match jsonStringBody (r.length + 1) r with
      | Option.some (key, rest) =>
        match jsonSkipWs rest with
        | ':' :: r2 =>
          match jsonValue fuel r2 with
          | Option.some (v, rest2) =>
            let acc2 := dictSetKey acc key v
            match jsonSkipWs rest2 with
            | ',' :: r3 => jsonMembers fuel r3 acc2
            | c2 :: r3 =>
              if c2 == rbrace then Option.some (PyVal.dict acc2, r3) else Option.none
            | [] => Option.none
          | Option.none => Option.none
        | _ => Option.none
      | Option.none => Option.none
    | _ => Option.none

/-- The items of a JSON array after the opening bracket. -/
def jsonItems : ℕ → List Char → List PyVal → Option (PyVal × List Char)
  | 0, _, _ => Option.none
  | fuel + 1, s, acc =>
    match jsonSkipWs s with
    | [] => Option.none
    | c :: r =>
      if c == ']' && acc.isEmpty then Option.some (PyVal.list [], r)
      else
        match jsonValue fuel (c :: r) with
        | Option.some (v, rest) =>
          match jsonSkipWs rest with
          | ',' :: r2 => jsonItems fuel r2 (acc ++ [v])
          | c2 :: r2 =>
            if c2 == ']' then Option.some (PyVal.list (acc ++ [v]), r2) else Option.none
          | [] => Option.none
        | Option.none => Option.none

end

/-- `json.loads`: parse a complete JSON document; `Option.none` models the
`json.JSONDecodeError` raised on failure (including trailing data). -/
def jsonLoads (s : List Char) : Option PyVal :=
  match jsonValue (4 * s.length + 16) s with
  | Option.some (v, rest) => if (jsonSkipWs rest).isEmpty then Option.some v else Option.none
  | Option.none => Option.none

/-! ## String utilities mirroring the Python `str` / `re` operations used -/

/-- Index of the first occurrence of `needle` in the suffix of the haystack. -/
def findSubAux (needle : List Char) : List Char → ℕ → Option ℕ
  | [], i => if needle.isEmpty then Option.some i else Option.none
  | c :: rest, i =>
    if needle.isPrefixOf (c :: rest) then Option.some i
    else findSubAux needle rest (i + 1)

/-- Python `needle in hay`. -/
def containsSub (hay needle : List Char) : Bool :=
  (findSubAux needle hay 0).isSome

/-- Python `hay.find(needle)`: first index, or -1. -/
def strFind (hay needle : List Char) : ℤ :=
  match findSubAux needle hay 0 with
  | Option.some i => (i : ℤ)
  | Option.none => -1

/-- Python `hay.find(needle, start)`. -/
def strFindFrom (hay needle : List Char) (start : ℕ) : ℤ :=
  match findSubAux needle (hay.drop start) 0 with
  | Option.some i => ((start + i : ℕ) : ℤ)
  | Option.none => -1

/-- Python `hay.rfind(c)` for a single character: last index, or -1. -/
def rfindChar (hay : List Char) (c : Char) : ℤ :=
  match findSubAux [c] hay.reverse 0 with
  | Option.some i => ((hay.length : ℤ) - 1 - (i : ℤ))
  | Option.none => -1

/-- Python slice `s[a:b]` with clamping and negative-index wraparound. -/
def pySliceIdx (s : List Char) (a b : ℤ) : List Char :=
  let n : ℤ := (s.length : ℤ)
  let fix : ℤ → ℕ := fun i => if i < 0 then (max 0 (n + i)).toNat else (min i n).toNat
  (s.take (fix b)).drop (fix a)

/-- Python `s.strip()` over ASCII whitespace. -/
def pyStrip (s : List Char) : List Char :=
  ((s.dropWhile isPySpace).reverse.dropWhile isPySpace).reverse

/-- `s.replace('\n', ' ').replace('\t', ' ')`. -/
def replaceNlTab (s : List Char) : List Char :=
  s.map (fun c => if c == '\n' then ' ' else if c == '\t' then ' ' else c)

/-- `re.sub(r',\s*X', 'X', s)` for a closing character `X` (brace or bracket). -/
def subTrailingCommaAux (close : Char) : ℕ → List Char → List Char
  | 0, s => s
  | _, [] => []
  | fuel + 1, c :: rest =>
    if c == ',' then
      match rest.dropWhile isPySpace with
      | c2 :: r3 =>
        if c2 == close then close :: subTrailingCommaAux close fuel r3
        else c :: subTrailingCommaAux close fuel rest
      | [] => c :: subTrailingCommaAux close fuel rest
    else c :: subTrailingCommaAux close fuel rest

def subTrailingComma (close : Char) (s : List Char) : List Char :=
  subTrailingCommaAux close (s.length + 1) s

/-- `re.sub(r'\s+', ' ', s)`. -/
def collapseWsAux : ℕ → List Char → List Char
  | 0, s => s
  | _, [] => []
  | fuel + 1, c :: rest =>
    if isPySpace c then ' ' :: collapseWsAux fuel (rest.dropWhile isPySpace)
    else c :: collapseWsAux fuel rest

def collapseWs (s : List Char) : List Char :=
  collapseWsAux (s.length + 1) s

/-- `re.sub(pat, '', s)` for a literal pattern `pat`. -/
def removeAllSubAux (pat : List Char) : ℕ → List Char → List Char
  | 0, s => s
  | _, [] => []
  | fuel + 1, c :: rest =>
    if pat.isPrefixOf (c :: rest) then removeAllSubAux pat fuel ((c :: rest).drop pat.length)
    else c :: removeAllSubAux pat fuel rest

def removeAllSub (pat s : List Char) : List Char :=
  removeAllSubAux pat (s.length + 1) s

def fenceChars : List Char := [btick, btick, btick]

def fenceJsonChars : List Char := fenceChars ++ ['j', 's', 'o', 'n']

/-- `re.sub` of a fenced-markdown line opener followed by the rest of its line
and an optional newline, replaced by the empty string. -/
def subFenceLinesAux : ℕ → List Char → List Char
  | 0, s => s
  | _, [] => []
  | fuel + 1, c :: rest =>
    if fenceChars.isPrefixOf (c :: rest) then
      let r1 := (c :: rest).drop 3
      let r2 := r1.dropWhile (fun ch => !(ch == '\n'))
      let r3 := match r2 with
        | '\n' :: t => t
        | _ => r2
      subFenceLinesAux fuel r3
    else c :: subFenceLinesAux fuel rest

def subFenceLines (s : List Char) : List Char :=
  subFenceLinesAux (s.length + 1) s

def endsWithChar (s : List Char) (c : Char) : Bool :=
  match s.getLast? with
  | Option.some c2 => c2 == c
  | Option.none => false

/-- Python truthiness of a decoded value. -/
def pyTruthy : PyVal → Bool
  | PyVal.none => false
  | PyVal.bool b => b
  | PyVal.int n => decide (n ≠ 0)
  | PyVal.float q => decide (q ≠ 0)
  | PyVal.str s => !s.isEmpty
  | PyVal.list xs => !xs.isEmpty
  | PyVal.dict kvs => !kvs.isEmpty

/-! ## Payload field names -/

def tlKey : List Char := "timeline_events".data

def csKey : List Char := "chunk_summary".data

def nhKey : List Char := "next_chunk_hint".data

def ciKey : List Char := "concepts_introduced".data

def veKey : List Char := "visual_elements_created".data

def tsKey : List Char := "timestamp".data

def durKey : List Char := "duration".data

def etKey : List Char := "event_type".data

def ctKey : List Char := "content".data

def viKey : List Char := "visual_instruction".data

/-! ## The five recovery strategies of `_try_parse_json_multiple_strategies` -/

/-- Strategy 1 (`_strategy_direct_parse`): basic cleanup then `json.loads`. -/
def strategyDirectParse (s : List Char) : Option PyVal :=
  let t := replaceNlTab s
  let t := subTrailingComma rbrace t
  let t := subTrailingComma ']' t
  let t := collapseWs t
  jsonLoads t

/-- Strategy 2 (`_strategy_boundary_extraction`): substring from the first
opening brace to the last closing brace, cleaned up, then `json.loads`. -/
def strategyBoundaryExtraction (s : List Char) : Option PyVal :=
  let jstart := strFind s [lbrace]
  let jend := rfindChar s rbrace + 1
  if 0 ≤ jstart ∧ jstart < jend then
    let t := pySliceIdx s jstart jend
    let t := replaceNlTab t
    let t := subTrailingComma rbrace t
    let t := subTrailingComma ']' t
    jsonLoads t
  else Option.none

/-- One candidate attempt of the progressive-truncation strategy. -/
def progTruncAttempt (candidate : List Char) : Option PyVal :=
  let lb := rfindChar candidate rbrace
  if 0 < lb then
    let cand2 := pySliceIdx candidate 0 (lb + 1)
    jsonLoads (subTrailingComma ']' (subTrailingComma rbrace cand2))
  else Option.none

/-- The `range(len(text_to_parse), json_start, -50)` loop of strategy 3. -/
def progTruncLoop (jstart : ℤ) (ttp : List Char) : ℕ → ℤ → Option PyVal
  | 0, _ => Option.none
  | fuel + 1, i =>
    if i ≤ jstart then Option.none
    else
      match progTruncAttempt (pySliceIdx ttp 0 (i - jstart)) with
      | Option.some v => Option.some v
      | Option.none => progTruncLoop jstart ttp fuel (i - 50)

/-- Strategy 3 (`_strategy_progressive_truncation`). -/
def strategyProgressiveTruncation (s : List Char) : Option PyVal :=
  let jstart := strFind s [lbrace]
  if jstart < 0 then Option.none
  else
    let ttp := pySliceIdx s jstart (s.length : ℤ)
    progTruncLoop jstart ttp (ttp.length / 50 + 2) (ttp.length : ℤ)

/-- The character scan of strategy 4, tracking brace/bracket depth and string
context, attempting a parse at each balanced point and repairing at the end. -/
def bracketRepairAux : ℕ → List Char → ℤ → ℤ → Bool → Bool → List Char → Option PyVal
  | 0, _, _, _, _, _, _ => Option.none
  | _ + 1, [], brace, bracket, _, _, acc =>
    let t := acc ++ List.replicate brace.toNat rbrace ++ List.replicate bracket.toNat ']'
    jsonLoads (subTrailingComma ']' (subTrailingComma rbrace t))
  | fuel + 1, ch :: rest, brace, bracket, inString, escapeNext, acc =>
    if escapeNext then bracketRepairAux fuel rest brace bracket inString false (acc ++ [ch])
    else if ch == '\\' then bracketRepairAux fuel rest brace bracket inString true (acc ++ [ch])
    else if ch == '"' then bracketRepairAux fuel rest brace bracket (!inString) false (acc ++ [ch])
    else
      let bb : ℤ × ℤ :=
        if !inString then
          if ch == lbrace then (brace + 1, bracket)
          else if ch == rbrace then (brace - 1, bracket)
          else if ch == '[' then (brace, bracket + 1)
          else if ch == ']' then (brace, bracket - 1)
          else (brace, bracket)
        else (brace, bracket)
      let acc2 := acc ++ [ch]
      if bb.1 = 0 ∧ bb.2 = 0 ∧ endsWithChar (pyStrip acc2) rbrace then
        match jsonLoads (subTrailingComma ']' (subTrailingComma rbrace acc2)) with
        | Option.some v => Option.some v
        | Option.none => bracketRepairAux fuel rest bb.1 bb.2 inString false acc2
      else bracketRepairAux fuel rest bb.1 bb.2 inString false acc2

/-- Strategy 4 (`_strategy_bracket_repair`). -/
def strategyBracketRepair (s : List Char) : Option PyVal :=
  let jstart := strFind s [lbrace]
  if jstart < 0 then Option.none
  else
    let t := pySliceIdx s jstart (s.length : ℤ)
    bracketRepairAux (t.length + 1) t 0 0 false false []

/-- Match `"name"\s*:\s*\[(.*?)\]` at the head of `t` (DOTALL, non-greedy). -/
def tryArrayAt (name : List Char) (t : List Char) : Option (List Char) :=
  if (('"' :: name) ++ ['"']).isPrefixOf t then
    let t1 := t.drop (name.length + 2)
    match t1.dropWhile isPySpace with
    | ':' :: t3 =>
      match t3.dropWhile isPySpace with
      | '[' :: t5 =>
        let cap := t5.takeWhile (fun c => !(c == ']'))
        if cap.length < t5.length then Option.some cap else Option.none
      | _ => Option.none
    | _ => Option.none
  else Option.none

/-- `re.search(r'"name"\s*:\s*\[(.*?)\]', s, re.DOTALL)`: first match. -/
def searchArrayFieldAux (name : List Char) : ℕ → List Char → Option (List Char)
  | 0, _ => Option.none
  | _, [] => Option.none
  | fuel + 1, t =>
    match tryArrayAt name t with
    | Option.some cap => Option.some cap
    | Option.none =>
      match t with
      | [] => Option.none
      | _ :: rest => searchArrayFieldAux name fuel rest

def searchArrayField (name s : List Char) : Option (List Char) :=
  searchArrayFieldAux name (s.length + 1) s

/-- Match `"name"\s*:\s*"([^"]*)"` at the head of `t`. -/
def tryStringAt (name : List Char) (t : List Char) : Option (List Char) :=
  if (('"' :: name) ++ ['"']).isPrefixOf t then
    let t1 := t.drop (name.length + 2)
    match t1.dropWhile isPySpace with
    | ':' :: t3 =>
      match t3.dropWhile isPySpace with
      | '"' :: t5 =>
        let cap := t5.takeWhile (fun c => !(c == '"'))
        if cap.length < t5.length then Option.some cap else Option.none
      | _ => Option.none
    | _ => Option.none
  else Option.none

/-- `re.search(r'"name"\s*:\s*"([^"]*)"', s)`: first match. -/
def searchStringFieldAux (name : List Char) : ℕ → List Char → Option (List Char)
  | 0, _ => Option.none
  | _, [] => Option.none
  | fuel + 1, t =>
    match tryStringAt name t with
    | Option.some cap => Option.some cap
    | Option.none =>
      match t with
      | [] => Option.none
      | _ :: rest => searchStringFieldAux name fuel rest

def searchStringField (name s : List Char) : Option (List Char) :=
  searchStringFieldAux name (s.length + 1) s

/-- Extract one array-valued field the way strategy 5 does: wrap the captured
group in brackets, strip trailing commas, `json.loads`; keep `[]` on failure. -/
def fieldArrayValue (name s : List Char) : PyVal :=
  match searchArrayField name s with
  | Option.some cap =>
    let cleaned := subTrailingComma ']' ('[' :: (cap ++ [']']))
    match jsonLoads cleaned with
    | Option.some v => v
    | Option.none => PyVal.list []
  | Option.none => PyVal.list []

/-- Extract one string-valued field the way strategy 5 does. -/
def fieldStringValue (name s : List Char) : PyVal :=
  match searchStringField name s with
  | Option.some cap => PyVal.str cap
  | Option.none => PyVal.str []

/-- Strategy 5 (`_strategy_field_by_field`): regex-extract the five payload
fields independently and reassemble an object when at least `timeline_events`
or `chunk_summary` was recovered. -/
def strategyFieldByField (s : List Char) : Option PyVal :=
  let timeline_events := fieldArrayValue tlKey s
  let chunk_summary := fieldStringValue csKey s
  let next_chunk_hint := fieldStringValue nhKey s
  let concepts_introduced := fieldArrayValue ciKey s
  let visual_elements_created := fieldArrayValue veKey s
  if pyTruthy timeline_events || pyTruthy chunk_summary then
    Option.some (PyVal.dict
      [(tlKey, timeline_events), (csKey, chunk_summary), (nhKey, next_chunk_hint),
       (ciKey, concepts_introduced), (veKey, visual_elements_created)])
  else Option.none

/-- The strategy driver: first strategy whose value is not Python `None`
(a strategy that raises is modelled as returning `Option.none`). -/
def pickStrategyResult (s : List Char) : List (List Char → Option PyVal) → Option PyVal
  | [] => Option.none
  | f :: fs =>
    match f s with
    | Option.some PyVal.none => pickStrategyResult s fs
    | Option.some v => Option.some v
    | Option.none => pickStrategyResult s fs

/-- `_try_parse_json_multiple_strategies`. -/
def tryParseJsonMultipleStrategies (s : List Char) : Option PyVal :=
  pickStrategyResult s
    [strategyDirectParse, strategyBoundaryExtraction, strategyProgressiveTruncation,
     strategyBracketRepair, strategyFieldByField]

/-- The markdown-fence unwrapping at the top of `_parse_chunk_response`. -/
def preprocessResponseText (s0 : List Char) : List Char :=
  let s := pyStrip s0
  if containsSub s fenceJsonChars then
    let jstart : ℤ := strFind s fenceJsonChars + 7
    let jendRaw : ℤ := strFindFrom s fenceChars jstart.toNat
    let jend : ℤ := if jendRaw = -1 then (s.length : ℤ) else jendRaw
    pyStrip (pySliceIdx s jstart jend)
  else if containsSub s fenceChars then
    pyStrip (removeAllSub fenceChars (subFenceLines s))
  else s

/-! ## `_extract_meaningful_content` -/

def asciiLowerChar (c : Char) : Char :=
  if 'A' ≤ c ∧ c ≤ 'Z' then Char.ofNat (c.toNat + 32) else c

def asciiLower (s : List Char) : List Char := s.map asciiLowerChar

/-- Case-insensitive match of the literal `content` at the head of `t`. -/
def matchContentCi (t : List Char) : Option (List Char) :=
  if asciiLower (t.take 7) = "content".data then Option.some (t.drop 7) else Option.none

def isQuoteChar (c : Char) : Bool := c == '"' || c == '\x27'

/-- Match `["\x27]?content["\x27]?\s*:\s*["\x27]([^"\x27 and not lbrace]+)["\x27]`
(IGNORECASE) at the head of `t`, with the one-step backtracking the optional
quote classes admit. -/
def tryContentAt (t : List Char) : Option (List Char) :=
  let afterC : Option (List Char) :=
    match t with
    | c :: rest =>
      if isQuoteChar c then matchContentCi rest
      else matchContentCi t
    | [] => Option.none
  match afterC with
  | Option.none => Option.none
  | Option.some r1 =>
    let tryColon : List Char → Option (List Char) := fun u =>
      match u.dropWhile isPySpace with
      | ':' :: v => Option.some v
      | _ => Option.none
    let afterColon : Option (List Char) :=
      match r1 with
      | c :: rest =>
        if isQuoteChar c then
          match tryColon rest with
          | Option.some v => Option.some v
          | Option.none => tryColon r1
        else tryColon r1
      | [] => tryColon r1
    match afterColon with
    | Option.none => Option.none
    | Option.some v =>
      match v.dropWhile isPySpace with
      | q :: w =>
        if isQuoteChar q then
          let cap := w.takeWhile (fun c => !(isQuoteChar c || c == lbrace))
          if cap.isEmpty then Option.none
          else
            match w.drop cap.length with
            | q2 :: _ => if isQuoteChar q2 then Option.some cap else Option.none
            | [] => Option.none
        else Option.none
      | [] => Option.none

def searchContentFieldAux : ℕ → List Char → Option (List Char)
  | 0, _ => Option.none
  | _, [] => Option.none
  | fuel + 1, t =>
    match tryContentAt t with
    | Option.some cap => Option.some cap
    | Option.none =>
      match t with
      | [] => Option.none
      | _ :: rest => searchContentFieldAux fuel rest

def searchContentField (s : List Char) : Option (List Char) :=
  searchContentFieldAux (s.length + 1) s

/-- `re.sub` removal of the characters in the class of braces, quotes and
square brackets. -/
def removeJsonArtifacts (s : List Char) : List Char :=
  s.filter (fun c => !(c == lbrace || c == rbrace || c == '"' || c == '[' || c == ']'))

def fieldNameLits : List (List Char) :=
  ["timeline_events:".data, "chunk_summary:".data, "content:".data,
   "timestamp:".data, "duration:".data, "event_type:".data]

/-- `re.sub` removal of the alternation of the six field-name literals. -/
def removeFieldNamesAux : ℕ → List Char → List Char
  | 0, s => s
  | _, [] => []
  | fuel + 1, c :: rest =>
    match fieldNameLits.find? (fun lit => lit.isPrefixOf (c :: rest)) with
    | Option.some lit => removeFieldNamesAux fuel ((c :: rest).drop lit.length)
    | Option.none => c :: removeFieldNamesAux fuel rest

def removeFieldNames (s : List Char) : List Char :=
  removeFieldNamesAux (s.length + 1) s

/-- `re.sub(r'\n+', ' ', s)`. -/
def newlineRunsToSpaceAux : ℕ → List Char → List Char
  | 0, s => s
  | _, [] => []
  | fuel + 1, c :: rest =>
    if c == '\n' then ' ' :: newlineRunsToSpaceAux fuel (rest.dropWhile (fun ch => ch == '\n'))
    else c :: newlineRunsToSpaceAux fuel rest

def newlineRunsToSpace (s : List Char) : List Char :=
  newlineRunsToSpaceAux (s.length + 1) s

/-- `re.match(r'^\d+\.?\d*$', s)` as a Bool. -/
def matchesNumOnly (s : List Char) : Bool :=
  let d1 := s.takeWhile Char.isDigit
  if d1.isEmpty then false
  else
    match s.drop d1.length with
    | [] => true
    | '.' :: r => r.all Char.isDigit
    | _ => false

def joinWithSpace : List (List Char) → List Char
  | [] => []
  | [x] => x
  | x :: xs => x ++ ' ' :: joinWithSpace xs

/-- `s[:200] + "..." if len(s) > 200 else s`. -/
def truncate200 (s : List Char) : List Char :=
  if 200 < s.length then s.take 200 ++ "...".data else s

def lastResortContent : List Char :=
  ("Educational content about the requested topic. The system encountered a " ++
   "formatting issue but will continue generating structured content.").data

/-- `_extract_meaningful_content`: salvage prose from a malformed response. -/
def extractMeaningfulContent (responseText : List Char) : List Char :=
  let text := pyStrip responseText
  let text := removeAllSub fenceChars (subFenceLines text)
  let fromContentField : Option (List Char) :=
    match searchContentField text with
    | Option.some cap =>
      let content := pyStrip cap
      if 20 < content.length then Option.some (truncate200 content) else Option.none
    | Option.none => Option.none
  match fromContentField with
  | Option.some content => content
  | Option.none =>
    let text := removeJsonArtifacts text
    let text := removeFieldNames text
    let text := newlineRunsToSpace text
    let text := collapseWs text
    let sentences := (text.splitOn '.').filterMap (fun sentence =>
      let s := pyStrip sentence
      if 20 < s.length ∧ matchesNumOnly s = false ∧
          containsSub (asciiLower s) "timestamp".data = false ∧
          containsSub (asciiLower s) "duration".data = false ∧
          containsSub (asciiLower s) "event_type".data = false then
        Option.some (s ++ ['.'])
      else Option.none)
    if sentences.isEmpty then lastResortContent
    else truncate200 (joinWithSpace (sentences.take 3))

/-! ## `_parse_chunk_response` -/

/-- Python `==` comparison of a list element against a string, as it arises in
`key in some_list`: only equal strings compare equal. -/
def listContainsStr (xs : List PyVal) (key : List Char) : Bool :=
  xs.any (fun v => match v with
    | PyVal.str s2 => decide (s2 = key)
    | _ => false)

/-- Python `key in container` for a string key; `int`, `float`, `bool` and
`None` containers raise `TypeError`. -/
def pyContainsStr (container : PyVal) (key : List Char) : Except PyErr Bool :=
  match container with
  | PyVal.dict kvs => Except.ok (dictHasKey kvs key)
  | PyVal.list xs => Except.ok (listContainsStr xs key)
  | PyVal.str s2 => Except.ok (containsSub s2 key)
  | _ => Except.error PyErr.typeError

/-- Python `container[key] = v` for a string key; only dicts accept it. -/
def pySetItemStr (container : PyVal) (key : List Char) (v : PyVal) : Except PyErr PyVal :=
  match container with
  | PyVal.dict kvs => Except.ok (PyVal.dict (dictSetKey kvs key v))
  | _ => Except.error PyErr.typeError

/-- Python `container.get(key, dflt)`; non-dicts have no `get` attribute. -/
def pyDictGetD (container : PyVal) (key : List Char) (dflt : PyVal) : Except PyErr PyVal :=
  match container with
  | PyVal.dict kvs => Except.ok (dictGetD kvs key dflt)
  | _ => Except.error PyErr.attributeError

/-- `d[k] = v` on an already-dict value, total form used after `get` succeeded. -/
def pySetKeyTotal (cd : PyVal) (k : List Char) (v : PyVal) : PyVal :=
  match cd with
  | PyVal.dict kvs => PyVal.dict (dictSetKey kvs k v)
  | other => other

def fallbackSummaryChars : List Char := "Content summary not available".data

/-- One iteration of the required-fields loop: `if field not in chunk_data:
chunk_data[field] = fallback`. -/
def requiredFieldStep (cd : PyVal) (key : List Char) (fb : PyVal) : Except PyErr PyVal :=
  match pyContainsStr cd key with
  | Except.error e => Except.error e
  | Except.ok true => Except.ok cd
  | Except.ok false => pySetItemStr cd key fb

/-- The required-fields loop over `timeline_events` then `chunk_summary`. -/
def ensureRequiredFields (cd : PyVal) : Except PyErr PyVal :=
  match requiredFieldStep cd tlKey (PyVal.list []) with
  | Except.error e => Except.error e
  | Except.ok cd1 => requiredFieldStep cd1 csKey (PyVal.str fallbackSummaryChars)

def defaultEventContent (i chunkNumber : ℕ) : List Char :=
  ("Content for event " ++ Nat.repr (i + 1) ++ " in chunk " ++ Nat.repr chunkNumber).data

/-- The per-event body of the timestamp-fixing loop: dict events get their
`timestamp` and `duration` overwritten and missing `event_type`/`content`
defaulted; non-dict events are skipped (`continue`). -/
def normalizeEvent (chunkStart spacing : ℚ) (chunkNumber i : ℕ) (ev : PyVal) : PyVal :=
  match ev with
  | PyVal.dict kvs =>
    let kvs1 := dictSetKey kvs tsKey (PyVal.float (chunkStart + (i : ℚ) * spacing))
    let kvs2 := dictSetKey kvs1 durKey (PyVal.float (min (spacing * (4 / 5)) 15))
    let kvs3 :=
      if dictHasKey kvs2 etKey then kvs2
      else dictSetKey kvs2 etKey (PyVal.str "narration".data)
    let kvs4 :=
      if dictHasKey kvs3 ctKey then kvs3
      else dictSetKey kvs3 ctKey (PyVal.str (defaultEventContent i chunkNumber))
    PyVal.dict kvs4
  | other => other

def mapIdxFrom {α β : Type} (f : ℕ → α → β) : ℕ → List α → List β
  | _, [] => []
  | k, a :: as => f k a :: mapIdxFrom f (k + 1) as

/-- The timestamp-fixing loop over the decoded `timeline_events` list, with
`chunk_duration = target_duration / total_chunks`,
`chunk_start_time = (chunk_number - 1) * chunk_duration` and
`event_spacing = chunk_duration / max(1, len(timeline_events))`. -/
def normalizeEventsList (events : List PyVal) (n N : ℕ) (D : ℚ) : List PyVal :=
  let chunk_duration := D / (N : ℚ)
  let chunk_start_time := ((n : ℚ) - 1) * chunk_duration
  let event_spacing := chunk_duration / ((max 1 events.length : ℕ) : ℚ)
  mapIdxFrom (normalizeEvent chunk_start_time event_spacing n) 0 events

/-- Dispatch of the timestamp-fixing loop on the type of the recovered
`timeline_events` value: a `str` or `dict` iterates over non-dict items and is
left unchanged, and a non-iterable raises `TypeError` at `enumerate`. -/
def normalizeWith (cd evVal : PyVal) (n N : ℕ) (D : ℚ) : Except PyErr PyVal :=
  match evVal with
  | PyVal.list xs => Except.ok (pySetKeyTotal cd tlKey (PyVal.list (normalizeEventsList xs n N D)))
  | PyVal.str _ => Except.ok cd
  | PyVal.dict _ => Except.ok cd
  | _ => Except.error PyErr.typeError

/-- The body of the `try` block after a strategy recovered a value. -/
def parseSuccessPath (v : PyVal) (chunkNumber : ℕ) (targetDuration : ℚ)
    (totalChunks : ℕ) : Except PyErr PyVal :=
  match ensureRequiredFields v with
  | Except.error e => Except.error e
  | Except.ok cd =>
    match pyDictGetD cd tlKey (PyVal.list []) with
    | Except.error e => Except.error e
    | Except.ok evVal =>
      if totalChunks = 0 then Except.error PyErr.zeroDivisionError
      else normalizeWith cd evVal chunkNumber totalChunks targetDuration

/-- The synthetic payload returned from the `json.JSONDecodeError` handler. -/
def jsonDecodeFallbackPayload (s : List Char) (chunkNumber totalChunks : ℕ)
    (targetDuration : ℚ) : PyVal :=
  let fallback_content := extractMeaningfulContent s
  let chunk_duration := targetDuration / (totalChunks : ℚ)
  let chunk_start_time := ((chunkNumber : ℚ) - 1) * chunk_duration
  PyVal.dict
    [(tlKey, PyVal.list [PyVal.dict
        [(tsKey, PyVal.float chunk_start_time),
         (durKey, PyVal.float chunk_duration),
         (etKey, PyVal.str "narration".data),
         (ctKey, PyVal.str fallback_content),
         (viKey, PyVal.str ("VISUAL: text center \x27".data ++ fallback_content.take 50 ++
            "\x27 informative".data))]]),
     (csKey, PyVal.str ("Chunk " ++ Nat.repr chunkNumber ++
        " - extracted content from malformed response").data),
     (nhKey, PyVal.str "Continue with structured content".data),
     (ciKey, PyVal.list [PyVal.str ("Basic concepts from chunk " ++
        Nat.repr chunkNumber).data]),
     (veKey, PyVal.list [PyVal.str "text explanation".data])]

/-- `_parse_chunk_response` on a character list.  A `total_chunks` of zero
would raise `ZeroDivisionError` at the `target_duration / total_chunks`
division in either branch; it is checked at the corresponding program point. -/
def parseChunkResponseCore (s0 : List Char) (chunkNumber : ℕ) (targetDuration : ℚ)
    (totalChunks : ℕ) : Except PyErr PyVal :=
  let s := preprocessResponseText s0
  match tryParseJsonMultipleStrategies s with
  | Option.some v => parseSuccessPath v chunkNumber targetDuration totalChunks
  | Option.none =>
    if totalChunks = 0 then Except.error PyErr.zeroDivisionError
    else Except.ok (jsonDecodeFallbackPayload s chunkNumber totalChunks targetDuration)

/-- `_parse_chunk_response(response_text, chunk_number, target_duration,
total_chunks)`. -/
def parseChunkResponse (responseText : String) (chunkNumber : ℕ) (targetDuration : ℚ)
    (totalChunks : ℕ) : Except PyErr PyVal :=
  parseChunkResponseCore responseText.data chunkNumber targetDuration totalChunks

/-! ## Types of `templates/timeline_prompts.py`

That module is imported by both source files but is not itself under the given
sources, so its types are modelled from the spec (section 3) and from how the
given sources use them. -/

/-- Modelled from the spec: the `ContentType` enumeration of the missing
`templates.timeline_prompts`; its eight members appear as keys of the factor
tables in `adaptive_chunk_sizer.py`. -/
inductive ContentType where
  | DEFINITION
  | PROCESS
  | COMPARISON
  | EXAMPLE
  | LIST
  | CONCEPT_MAP
  | FORMULA
  | STORY
deriving DecidableEq

/-- Modelled from the spec: the `DifficultyLevel` enumeration of the missing
`templates.timeline_prompts`, with the three members used by the sources. -/
inductive DifficultyLevel where
  | BEGINNER
  | INTERMEDIATE
  | ADVANCED
deriving DecidableEq

/-- Modelled from the spec: `ChunkGenerationConfig` of the missing
`templates.timeline_prompts` — per-chunk instruction: max tokens, target
duration, content type, difficulty, whether to request visual instructions,
whether continuity with the previous chunk must be maintained. -/
structure ChunkGenerationConfig where
  max_tokens : ℤ
  target_duration : ℚ
  content_type : ContentType
  difficulty : DifficultyLevel
  include_visual_instructions : Bool
  maintain_continuity : Bool
deriving DecidableEq

/-- Modelled from the spec: `ContinuityContext` of the missing
`templates.timeline_prompts` — concept labels and visual-element labels carried
forward, the narrative-thread summary, the cumulative timestamp reached, and
the 1-based index of the producing chunk.  The first three fields hold decoded
payload values exactly as assigned in `generate_chunked_lesson`. -/
structure ContinuityContext where
  previous_concepts : PyVal
  visual_elements : PyVal
  narrative_thread : PyVal
  current_timestamp : ℚ
  chunk_number : ℕ

/-! ## `adaptive_chunk_sizer.py` -/

/-- The `ChunkSize` enumeration (module level in `adaptive_chunk_sizer.py`). -/
inductive ChunkSize where
  | SMALL
  | MEDIUM
  | LARGE
deriving DecidableEq

/-- Modelled from the spec: the `.value` strings of the `ChunkSize` members. -/
def ChunkSize.value : ChunkSize → String
  | ChunkSize.SMALL => "small"
  | ChunkSize.MEDIUM => "medium"
  | ChunkSize.LARGE => "large"

/-- Modelled from the spec: the `.value` strings of the `ContentType` members
(lowercase member names, following the `ChunkSize` convention). -/
def ContentType.value : ContentType → String
  | ContentType.DEFINITION => "definition"
  | ContentType.PROCESS => "process"
  | ContentType.COMPARISON => "comparison"
  | ContentType.EXAMPLE => "example"
  | ContentType.LIST => "list"
  | ContentType.CONCEPT_MAP => "concept_map"
  | ContentType.FORMULA => "formula"
  | ContentType.STORY => "story"

/-- `ComplexityMetrics`: five scores, each intended to lie in `[0, 1]`. -/
structure ComplexityMetrics where
  concept_density : ℚ
  prerequisite_load : ℚ
  visual_complexity : ℚ
  cognitive_load : ℚ
  interaction_level : ℚ
deriving DecidableEq

/-- The derived weighted `overall_complexity` property (weights
0.25/0.20/0.20/0.25/0.10). -/
def ComplexityMetrics.overall_complexity (m : ComplexityMetrics) : ℚ :=
  m.concept_density * (25 / 100) + m.prerequisite_load * (20 / 100) +
    m.visual_complexity * (20 / 100) + m.cognitive_load * (25 / 100) +
    m.interaction_level * (10 / 100)

/-- `ChunkRecommendation`. -/
structure ChunkRecommendation where
  chunk_size : ChunkSize
  target_duration : ℚ
  target_tokens : ℤ
  estimated_chunks_needed : ℤ
  break_points : List String
  reasoning : String
  complexity_factors : List String
  confidence : ℚ
deriving DecidableEq

/-- The fixed per-content-type factor table of `recommend_chunk_size`. -/
def contentTypeFactor : ContentType → ℚ
  | ContentType.DEFINITION => 8 / 10
  | ContentType.PROCESS => 12 / 10
  | ContentType.COMPARISON => 11 / 10
  | ContentType.EXAMPLE => 9 / 10
  | ContentType.LIST => 7 / 10
  | ContentType.CONCEPT_MAP => 13 / 10
  | ContentType.FORMULA => 1
  | ContentType.STORY => 14 / 10

/-- The three-band selection of the size category from the adjusted score. -/
def chunkSizeCategory (adjusted : ℚ) : ChunkSize :=
  if adjusted < 4 / 10 then ChunkSize.LARGE
  else if adjusted < 7 / 10 then ChunkSize.MEDIUM
  else ChunkSize.SMALL

/-- The target duration paired with each band. -/
def bandTargetDuration (adjusted : ℚ) : ℚ :=
  if adjusted < 4 / 10 then 45 else if adjusted < 7 / 10 then 30 else 20

/-- The target token budget paired with each band. -/
def bandTargetTokens (adjusted : ℚ) : ℤ :=
  if adjusted < 4 / 10 then 1000 else if adjusted < 7 / 10 then 800 else 600

/-- Python truthiness of the optional `total_estimated_content` argument. -/
def intOptTruthy : Option ℤ → Bool
  | Option.none => false
  | Option.some n => decide (n ≠ 0)

/-- Python truthiness of the optional `total_duration` argument. -/
def ratOptTruthy : Option ℚ → Bool
  | Option.none => false
  | Option.some q => decide (q ≠ 0)

/-- Python `int(q)`: truncation toward zero. -/
def pyIntTrunc (q : ℚ) : ℤ := q.num.tdiv q.den

def definitionBreakPoints : List String :=
  ["Core definition", "Key characteristics", "Examples and applications",
   "Common misconceptions", "Summary and review"]

/-- The `break_point_templates` table; `dict.get` falls back to the
`DEFINITION` entry for content types without one. -/
def breakPointTemplate : ContentType → List String
  | ContentType.DEFINITION => definitionBreakPoints
  | ContentType.PROCESS =>
    ["Process overview", "Initial steps", "Core transformation", "Final stages",
     "Results and applications"]
  | ContentType.COMPARISON =>
    ["Introduction of concepts", "Similarities analysis", "Key differences",
     "Use case scenarios", "Conclusion and recommendations"]
  | ContentType.EXAMPLE =>
    ["Example introduction", "Context and setup", "Step-by-step walkthrough",
     "Results and analysis", "Lessons learned"]
  | _ => definitionBreakPoints

/-- `_generate_break_points`: `template[:chunk_count]`. -/
def generateBreakPoints (content_type : ContentType) (chunk_count : ℕ) : List String :=
  (breakPointTemplate content_type).take chunk_count

def wellUnderstoodTypes : List ContentType :=
  [ContentType.DEFINITION, ContentType.PROCESS, ContentType.COMPARISON]

/-- Confidence bonus when `concept_density` is away from the 0.5 midpoint. -/
def confFactorConcept (m : ComplexityMetrics) : List ℚ :=
  if m.concept_density < 3 / 10 ∨ 7 / 10 < m.concept_density then [2 / 10] else []

/-- Confidence bonus when `visual_complexity` is away from the midpoint. -/
def confFactorVisual (m : ComplexityMetrics) : List ℚ :=
  if m.visual_complexity < 3 / 10 ∨ 7 / 10 < m.visual_complexity then [15 / 100] else []

/-- Confidence bonus when `cognitive_load` is away from the midpoint. -/
def confFactorCognitive (m : ComplexityMetrics) : List ℚ :=
  if m.cognitive_load < 3 / 10 ∨ 7 / 10 < m.cognitive_load then [15 / 100] else []

/-- Confidence bonus for the well-understood content types. -/
def confFactorWellUnderstood (content_type : ContentType) : List ℚ :=
  if content_type ∈ wellUnderstoodTypes then [2 / 10] else []

/-- `_calculate_confidence`. -/
def calculateConfidence (m : ComplexityMetrics) (content_type : ContentType) : ℚ :=
  let confidence_factors : List ℚ :=
    confFactorConcept m ++ confFactorVisual m ++ confFactorCognitive m ++
      confFactorWellUnderstood content_type
  min 1 (6 / 10 + confidence_factors.sum)

def labelConcept (m : ComplexityMetrics) : List String :=
  if 6 / 10 < m.concept_density then ["high concept density"] else []

def labelVisual (m : ComplexityMetrics) : List String :=
  if 6 / 10 < m.visual_complexity then ["complex visual requirements"] else []

def labelCognitive (m : ComplexityMetrics) : List String :=
  if 7 / 10 < m.cognitive_load then ["high cognitive load"] else []

def labelPrerequisite (m : ComplexityMetrics) : List String :=
  if 6 / 10 < m.prerequisite_load then ["significant prerequisites"] else []

/-- The `complexity_factors` label list of `recommend_chunk_size`. -/
def complexityFactorLabels (m : ComplexityMetrics) : List String :=
  labelConcept m ++ labelVisual m ++ labelCognitive m ++ labelPrerequisite m

/-- The `reasoning` string of `recommend_chunk_size`. -/
def recommendationReasoning (cs : ChunkSize) (ct : ContentType)
    (factors : List String) : String :=
  let base := "Recommended " ++ cs.value ++ " chunks based on " ++ ct.value ++ " content type"
  if factors.isEmpty then base else base ++ " with " ++ String.intercalate ", " factors

/-- `recommend_chunk_size`. -/
def recommendChunkSize (complexity : ComplexityMetrics) (content_type : ContentType)
    (total_estimated_content : Option ℤ) (total_duration : Option ℚ) :
    ChunkRecommendation :=
  let complexity_score := complexity.overall_complexity
  let content_factor := contentTypeFactor content_type
  let adjusted_complexity := complexity_score * content_factor
  let chunk_size := chunkSizeCategory adjusted_complexity
  let target_duration := bandTargetDuration adjusted_complexity
  let target_tokens := bandTargetTokens adjusted_complexity
  let estimated_chunks : ℤ :=
    if intOptTruthy total_estimated_content then
      max 1 (Int.fdiv (total_estimated_content.getD 0) target_tokens)
    else if ratOptTruthy total_duration then
      max 1 (pyIntTrunc ((total_duration.getD 0) / target_duration))
    else if 7 / 10 < complexity_score then 5
    else if 4 / 10 < complexity_score then 3
    else 2
  let complexity_factors := complexityFactorLabels complexity
  ChunkRecommendation.mk chunk_size target_duration target_tokens estimated_chunks
    (generateBreakPoints content_type estimated_chunks.toNat)
    (recommendationReasoning chunk_size content_type complexity_factors)
    complexity_factors
    (calculateConfidence complexity content_type)

/-! ## `analyze_and_plan_chunks` -/

/-- Lines 140-143: the per-chunk config duration
`min(recommendation.target_duration, target_total_duration /
recommendation.estimated_chunks_needed)`. -/
def chunkConfigDuration (recTargetDuration targetTotalDuration : ℚ)
    (estimatedChunks : ℤ) : ℚ :=
  min recTargetDuration (targetTotalDuration / (estimatedChunks : ℚ))

/-- The success path of `analyze_and_plan_chunks` from a computed
recommendation: one `ChunkGenerationConfig` per estimated chunk, with
`maintain_continuity = (i > 0)`. -/
def analyzeAndPlanSuccess (recommendation : ChunkRecommendation)
    (content_type : ContentType) (difficulty : DifficultyLevel)
    (target_total_duration : ℚ) :
    ChunkRecommendation × List ChunkGenerationConfig :=
  let chunk_duration := chunkConfigDuration recommendation.target_duration
    target_total_duration recommendation.estimated_chunks_needed
  (recommendation,
   (List.range recommendation.estimated_chunks_needed.toNat).map (fun i =>
     ChunkGenerationConfig.mk recommendation.target_tokens chunk_duration
       content_type difficulty true (decide (0 < i))))

/-- The attributes reachable on an `AdaptiveChunkSizer` instance: the fields
set in `__init__` and the methods of the class.  `ChunkSize` is a module-level
class of `adaptive_chunk_sizer.py` and is not among them. -/
def adaptiveChunkSizerInstanceAttrs : List String :=
  ["config", "template_generator", "token_patterns",
   "analyze_topic_complexity", "recommend_chunk_size",
   "_estimate_concept_density", "_estimate_prerequisite_load",
   "_estimate_visual_complexity", "_estimate_cognitive_load",
   "_estimate_interaction_level", "_generate_break_points",
   "_calculate_confidence", "estimate_tokens_for_duration",
   "validate_chunk_boundaries"]

/-- The `except` handler of `analyze_and_plan_chunks` (lines 158-181).  Its
first step evaluates `self.chunk_sizer.ChunkSize`, an attribute lookup on the
`AdaptiveChunkSizer` instance; when the lookup fails the handler itself raises
`AttributeError` and the intended fallback recommendation (the `ok` branch
below) is never built.  The two config fields the fallback constructor omits
are modelled from the spec as visual instructions on, continuity off. -/
def analyzeAndPlanExceptHandler (content_type : ContentType)
    (difficulty : DifficultyLevel) :
    Except PyErr (ChunkRecommendation × List ChunkGenerationConfig) :=
  if "ChunkSize" ∈ adaptiveChunkSizerInstanceAttrs then
    Except.ok
      (ChunkRecommendation.mk ChunkSize.MEDIUM 30 800 3
        ["Introduction", "Main Content", "Summary"]
        "Fallback configuration due to analysis error" ["unknown"] (5 / 10),
       List.replicate 3 (ChunkGenerationConfig.mk 800 30 content_type difficulty true false))
  else Except.error PyErr.attributeError

/-- `analyze_and_plan_chunks`, parameterized by the outcome of its `try` body
(the complexity analysis and sizing, whose own failure modes are external to
this claim): `ok` results pass through, and any exception reaches the handler. -/
def analyzeAndPlanChunksModel
    (tryResult : Except PyErr (ChunkRecommendation × List ChunkGenerationConfig))
    (content_type : ContentType) (difficulty : DifficultyLevel) :
    Except PyErr (ChunkRecommendation × List ChunkGenerationConfig) :=
  match tryResult with
  | Except.ok r => Except.ok r
  | Except.error _ => analyzeAndPlanExceptHandler content_type difficulty

/-! ## `generate_chunk`, the result cache and `get_generation_stats` -/

/-- The `GenerationStatus` enumeration. -/
inductive GenerationStatus where
  | PENDING
  | ANALYZING
  | GENERATING
  | PROCESSING
  | COMPLETED
  | FAILED
deriving DecidableEq

/-- `ChunkGenerationResult`; wall-clock `generation_time` is a parameter of
the model rather than a measured value. -/
structure ChunkGenerationResult where
  chunk_id : String
  chunk_number : ℕ
  timeline_events : PyVal
  chunk_summary : PyVal
  next_chunk_hint : PyVal
  concepts_introduced : PyVal
  visual_elements_created : PyVal
  generation_time : ℚ
  token_count : ℤ
  status : GenerationStatus
  error_message : Option String

def pyErrMessage : PyErr → String
  | PyErr.typeError => "TypeError"
  | PyErr.attributeError => "AttributeError"
  | PyErr.zeroDivisionError => "ZeroDivisionError"
  | PyErr.jsonDecodeError => "JSONDecodeError"

/-- Word count of `str.split()` (runs of whitespace, empty words dropped). -/
def countWordsAux : ℕ → List Char → ℕ
  | 0, _ => 0
  | fuel + 1, s =>
    match s.dropWhile isPySpace with
    | [] => 0
    | s1 => 1 + countWordsAux fuel (s1.dropWhile (fun c => !(isPySpace c)))

/-- `_estimate_token_count`: `int(word_count * 1.3)`. -/
def estimateTokenCount (s : List Char) : ℤ :=
  pyIntTrunc ((countWordsAux (s.length + 1) s : ℚ) * (13 / 10))

/-- The FAILED `ChunkGenerationResult` built in the `except` branch of
`generate_chunk`. -/
def failedChunkResult (chunkId : String) (chunkNumber : ℕ) (gtime : ℚ)
    (msg : String) : ChunkGenerationResult :=
  ChunkGenerationResult.mk chunkId chunkNumber (PyVal.list []) (PyVal.str [])
    (PyVal.str []) (PyVal.list []) (PyVal.list []) gtime 0
    GenerationStatus.FAILED (Option.some msg)

/-- `generate_chunk`: the LLM round-trip is abstracted by `responseText`
(`Option.none` models `_make_llm_request_with_retry` returning `None`) and
wall-clock timing by `gtime`.  Every exception of the per-chunk pipeline is
caught at this boundary and becomes a FAILED result. -/
def generateChunkModel (chunkId : String) (gtime : ℚ) (responseText : Option String)
    (cfg : ChunkGenerationConfig) (chunkNumber totalChunks : ℕ) :
    ChunkGenerationResult :=
  match responseText with
  | Option.none => failedChunkResult chunkId chunkNumber gtime "Failed to get response from LLM"
  | Option.some resp =>
    match parseChunkResponse resp chunkNumber cfg.target_duration totalChunks with
    | Except.error e => failedChunkResult chunkId chunkNumber gtime (pyErrMessage e)
    | Except.ok (PyVal.dict kvs) =>
      let timeline_events := dictGetD kvs tlKey (PyVal.list [])
      if pyTruthy timeline_events = false then
        failedChunkResult chunkId chunkNumber gtime "No timeline events generated"
      else
        ChunkGenerationResult.mk chunkId chunkNumber timeline_events
          (dictGetD kvs csKey (PyVal.str []))
          (dictGetD kvs nhKey (PyVal.str []))
          (dictGetD kvs ciKey (PyVal.list []))
          (dictGetD kvs veKey (PyVal.list []))
          gtime (estimateTokenCount resp.data) GenerationStatus.COMPLETED Option.none
    | Except.ok _ => failedChunkResult chunkId chunkNumber gtime (pyErrMessage PyErr.attributeError)

/-- `self.generation_cache[chunk_id] = result`: dict insert. -/
def cacheInsert (cache : List (String × ChunkGenerationResult)) (k : String)
    (r : ChunkGenerationResult) : List (String × ChunkGenerationResult) :=
  if cache.any (fun kv => decide (kv.1 = k)) then
    cache.map (fun kv => if kv.1 = k then (k, r) else kv)
  else cache ++ [(k, r)]

/-- `generate_chunk` together with its caching effect: only the success branch
(whose result carries `status=COMPLETED`) stores into `generation_cache`. -/
def generateChunkAndCache (cache : List (String × ChunkGenerationResult))
    (chunkId : String) (gtime : ℚ) (responseText : Option String)
    (cfg : ChunkGenerationConfig) (chunkNumber totalChunks : ℕ) :
    ChunkGenerationResult × List (String × ChunkGenerationResult) :=
  let r := generateChunkModel chunkId gtime responseText cfg chunkNumber totalChunks
  if r.status = GenerationStatus.COMPLETED then (r, cacheInsert cache chunkId r)
  else (r, cache)

/-- The cache states reachable from the empty `generation_cache` of `__init__`
by calls to `generate_chunk`. -/
inductive CacheReachable : List (String × ChunkGenerationResult) → Prop where
  | nil : CacheReachable []
  | step (cache : List (String × ChunkGenerationResult)) (chunkId : String)
      (gtime : ℚ) (responseText : Option String) (cfg : ChunkGenerationConfig)
      (chunkNumber totalChunks : ℕ) : CacheReachable cache →
      CacheReachable
        (generateChunkAndCache cache chunkId gtime responseText cfg chunkNumber totalChunks).2

/-- The return value of `get_generation_stats`. -/
inductive StatsReport where
  | noCompletedGenerations
  | report (total_chunks_generated successful_chunks : ℕ)
      (success_rate average_generation_time average_token_count : ℚ)
      (cache_size : ℕ)
deriving DecidableEq

/-- `get_generation_stats`. -/
def getGenerationStats (cache : List (String × ChunkGenerationResult)) : StatsReport :=
  let completed := (cache.map (fun kv => kv.2)).filter
    (fun r => decide (r.status = GenerationStatus.COMPLETED))
  if completed.isEmpty then StatsReport.noCompletedGenerations
  else
    let total := cache.length
    StatsReport.report total completed.length
      (if 0 < total then (completed.length : ℚ) / (total : ℚ) else 0)
      ((completed.map (fun r => r.generation_time)).sum / (completed.length : ℚ))
      ((((completed.map (fun r => r.token_count)).sum : ℤ) : ℚ) / (completed.length : ℚ))
      cache.length

/-! ## The continuity threading of `generate_chunked_lesson` -/

/-- The `ContinuityContext` built after chunk `i` (0-based) completed, from its
result and `sum(config.target_duration for config in chunk_configs[:i+1])`. -/
def mkContinuityFromResult (r : ChunkGenerationResult)
    (chunkConfigs : List ChunkGenerationConfig) (i : ℕ) : ContinuityContext :=
  ContinuityContext.mk r.concepts_introduced r.visual_elements_created r.chunk_summary
    (((chunkConfigs.take (i + 1)).map (fun c => c.target_duration)).sum) (i + 1)

/-- The update of the loop variable `continuity_context` after chunk `i`'s
result: replaced only when the chunk COMPLETED, otherwise kept. -/
def contextAfterChunk (ctx : Option ContinuityContext)
    (chunkConfigs : List ChunkGenerationConfig) (i : ℕ)
    (r : ChunkGenerationResult) : Option ContinuityContext :=
  if r.status = GenerationStatus.COMPLETED then
    Option.some (mkContinuityFromResult r chunkConfigs i)
  else ctx

def contextsPassedAux (chunkConfigs : List ChunkGenerationConfig) :
    Option ContinuityContext → ℕ → List ChunkGenerationResult →
    List (Option ContinuityContext)
  | _, _, [] => []
  | ctx, i, r :: rs =>
    ctx :: contextsPassedAux chunkConfigs (contextAfterChunk ctx chunkConfigs i r) (i + 1) rs

/-- For each chunk of the loop of `generate_chunked_lesson` (given the
per-chunk results in order), the `continuity_context` argument passed to
`generate_chunk`, and hence to `get_chunk_generation_prompt`: it starts as
`None` and is superseded only by completed chunks. -/
def contextsPassed (results : List ChunkGenerationResult)
    (chunkConfigs : List ChunkGenerationConfig) : List (Option ContinuityContext) :=
  contextsPassedAux chunkConfigs Option.none 0 results

/-! ## Observation helpers used by the theorem statements -/

/-- The event at index `i` of the `timeline_events` entry of a parser result. -/
def resultEvent (r : Except PyErr PyVal) (i : ℕ) : Option PyVal :=
  match r with
  | Except.ok (PyVal.dict kvs) =>
    match dictLookup kvs tlKey with
    | Option.some (PyVal.list xs) => xs[i]?
    | _ => Option.none
  | _ => Option.none

/-- A named field of an event, when the event is a dict. -/
def eventField (ev : Option PyVal) (k : List Char) : Option PyVal :=
  match ev with
  | Option.some (PyVal.dict kvs) => dictLookup kvs k
  | _ => Option.none

/-- Number of timeline events of a parser result. -/
def resultEventCount (r : Except PyErr PyVal) : Option ℕ :=
  match r with
  | Except.ok (PyVal.dict kvs) =>
    match dictLookup kvs tlKey with
    | Option.some (PyVal.list xs) => Option.some xs.length
    | _ => Option.none
  | _ => Option.none

/-- The exception class of a result, when it raised. -/
def errOf (r : Except PyErr PyVal) : Option PyErr :=
  match r with
  | Except.error e => Option.some e
  | Except.ok _ => Option.none

/-- Project a float value out of an optional payload value. -/
def floatOfPy : Option PyVal → Option ℚ
  | Option.some (PyVal.float q) => Option.some q
  | _ => Option.none

/-- Whether a payload value is a dict carrying the given key. -/
def hasKeyC (p : PyVal) (k : List Char) : Bool :=
  match p with
  | PyVal.dict kvs => dictHasKey kvs k
  | _ => false

/-- Whether a payload value is a Python dict. -/
def PyVal.isDict : PyVal → Bool
  | PyVal.dict _ => true
  | _ => false

/-- Whether a payload value is iterable in Python (`str`, `list` or `dict`). -/
def pyIterable : PyVal → Bool
  | PyVal.str _ => true
  | PyVal.list _ => true
  | PyVal.dict _ => true
  | _ => false

/-- A strategy-recovered value the post-processing of `_parse_chunk_response`
accepts without raising: a JSON object whose `timeline_events` value (with a
missing key filled as `[]`) is iterable. -/
def goodRecovered : PyVal → Bool
  | PyVal.dict kvs =>
    (match dictLookup kvs tlKey with
     | Option.some w => pyIterable w
     | Option.none => true)
  | _ => false

/-- A named field of an event of a `ChunkGenerationResult`. -/
def chunkResultEventField (r : ChunkGenerationResult) (i : ℕ) (k : List Char) :
    Option PyVal :=
  match r.timeline_events with
  | PyVal.list xs =>
    match xs[i]? with
    | Option.some (PyVal.dict kvs) => dictLookup kvs k
    | _ => Option.none
  | _ => Option.none

/-- The exact JSON input of the spec's exact-JSON scenario. -/
def c5Input : String :=
  "\x7b\"timeline_events\":[\x7b\"content\":\"A\"\x7d],\"chunk_summary\":\"s\"\x7d"

/-- Metrics with all five scores equal; their `overall_complexity` is that
common score, since the weights sum to 1. -/
def uniformMetrics (c : ℚ) : ComplexityMetrics := ComplexityMetrics.mk c c c c c

/-- `Rat` floor, executable: `num.fdiv den`. -/
def ratFloorZ (q : ℚ) : ℤ := q.num.fdiv q.den

/-- Python 3 `round` to an integer: round half to even. -/
def pyRound (q : ℚ) : ℤ :=
  let f := ratFloorZ q
  let r := q - (f : ℚ)
  if r < 1 / 2 then f
  else if 1 / 2 < r then f + 1
  else if f % 2 = 0 then f else f + 1

/-- A one-element reachable cache state: the single `generate_chunk` call of
the exact-JSON scenario, which completes and stores its result. -/
def c10CacheExample : List (String × ChunkGenerationResult) :=
  (generateChunkAndCache [] "c" 0 (Option.some c5Input)
    (ChunkGenerationConfig.mk 800 30 ContentType.DEFINITION DifficultyLevel.BEGINNER
      true true) 2 4).2

/-- A COMPLETED `ChunkGenerationResult` with empty payload fields, used as a
concrete successful chunk in witnesses. -/
def completedResultExample : ChunkGenerationResult :=
  ChunkGenerationResult.mk "c1" 1 (PyVal.list []) (PyVal.str []) (PyVal.str [])
    (PyVal.list []) (PyVal.list []) 0 0 GenerationStatus.COMPLETED Option.none

/-! ## Dictionary lemmas -/

theorem anyKey_map_replace (k k' : List Char) (v : PyVal) (hk : ¬(k = k')) :
    ∀ kvs : List (List Char × PyVal),
      ((kvs.map (fun kv => if kv.1 = k then (k, v) else kv)).any
          fun kv => decide (kv.1 = k')) =
        kvs.any fun kv => decide (kv.1 = k')
  | [] => rfl
  | a :: as => by
    simp only [List.map_cons, List.any_cons, anyKey_map_replace k k' v hk as]
    by_cases ha : a.1 = k
    · simp [ha, hk]
    · simp [ha]

theorem findKey_map_replace (k k' : List Char) (v : PyVal) (hk : ¬(k = k')) :
    ∀ kvs : List (List Char × PyVal),
      (kvs.map (fun kv => if kv.1 = k then (k, v) else kv)).find?
          (fun kv => decide (kv.1 = k')) =
        kvs.find? (fun kv => decide (kv.1 = k'))
  | [] => rfl
  | a :: as => by
    by_cases ha : a.1 = k
    · rw [List.map_cons, if_pos ha, List.find?_cons_of_neg _ (by simpa using hk),
        List.find?_cons_of_neg _ (by simp [ha, hk]),
        findKey_map_replace k k' v hk as]
    · rw [List.map_cons, if_neg ha]
      by_cases ha' : a.1 = k'
      · rw [List.find?_cons_of_pos _ (by simpa using ha'),
          List.find?_cons_of_pos _ (by simpa using ha')]
      · rw [List.find?_cons_of_neg _ (by simpa using ha'),
          List.find?_cons_of_neg _ (by simpa using ha'),
          findKey_map_replace k k' v hk as]

theorem findKey_map_replace_self (k : List Char) (v : PyVal) :
    ∀ kvs : List (List Char × PyVal), dictHasKey kvs k = true →
      (kvs.map (fun kv => if kv.1 = k then (k, v) else kv)).find?
          (fun kv => decide (kv.1 = k)) = Option.some (k, v)
  | [], h => by simp [dictHasKey] at h
  | a :: as, h => by
    by_cases ha : a.1 = k
    · rw [List.map_cons, if_pos ha, List.find?_cons_of_pos _ (by simp)]
    · rw [List.map_cons, if_neg ha, List.find?_cons_of_neg _ (by simpa using ha)]
      apply findKey_map_replace_self k v as
      rw [dictHasKey, List.any_cons] at h
      rw [dictHasKey]
      simp only [Bool.or_eq_true, decide_eq_true_eq] at h
      rcases h with h | h
      · exact absurd h ha
      · exact h

theorem dictHasKey_setKey_self (kvs : List (List Char × PyVal)) (k : List Char)
    (v : PyVal) : dictHasKey (dictSetKey kvs k v) k = true := by
  by_cases h : dictHasKey kvs k
  · unfold dictSetKey
    rw [if_pos h, dictHasKey]
    rw [List.any_eq_true]
    exact ⟨(k, v), List.mem_map.mpr (by
      rw [dictHasKey, List.any_eq_true] at h
      obtain ⟨kv, hkv, hkk⟩ := h
      exact ⟨kv, hkv, by simp [of_decide_eq_true hkk]⟩), by simp⟩
  · unfold dictSetKey
    rw [if_neg h, dictHasKey, List.any_eq_true]
    exact ⟨(k, v), by simp, by simp⟩

theorem dictHasKey_setKey_of_ne (kvs : List (List Char × PyVal)) (k k' : List Char)
    (v : PyVal) (hne : k' ≠ k) :
    dictHasKey (dictSetKey kvs k v) k' = dictHasKey kvs k' := by
  have hk : ¬(k = k') := fun hkk => hne hkk.symm
  unfold dictSetKey
  split
  · rw [dictHasKey, dictHasKey]
    exact anyKey_map_replace k k' v hk kvs
  · rw [dictHasKey, dictHasKey, List.any_append]
    simp [hk]

theorem dictLookup_setKey_self (kvs : List (List Char × PyVal)) (k : List Char)
    (v : PyVal) : dictLookup (dictSetKey kvs k v) k = Option.some v := by
  by_cases h : dictHasKey kvs k
  · unfold dictSetKey
    rw [if_pos h, dictLookup, findKey_map_replace_self k v kvs h]
    rfl
  · unfold dictSetKey
    rw [if_neg h, dictLookup]
    have hnone : kvs.find? (fun kv => decide (kv.1 = k)) = Option.none := by
      rw [List.find?_eq_none]
      intro x hx hcontra
      exact h (by rw [dictHasKey, List.any_eq_true]; exact ⟨x, hx, by simpa using hcontra⟩)
    rw [List.find?_append, hnone]
    rw [List.find?_cons_of_pos _ (by simp)]
    rfl

theorem dictLookup_setKey_of_ne (kvs : List (List Char × PyVal)) (k k' : List Char)
    (v : PyVal) (hne : k' ≠ k) :
    dictLookup (dictSetKey kvs k v) k' = dictLookup kvs k' := by
  have hk : ¬(k = k') := fun hkk => hne hkk.symm
  unfold dictSetKey
  split
  · rw [dictLookup, dictLookup, findKey_map_replace k k' v hk kvs]
  · rw [dictLookup, dictLookup, List.find?_append]
    have hone : List.find? (fun kv => decide (kv.1 = k')) [(k, v)] = Option.none := by
      rw [List.find?_cons_of_neg _ (by simpa using hk)]
      rfl
    rw [hone]
    cases kvs.find? (fun kv => decide (kv.1 = k')) <;> rfl

/-! ## The required-fields loop on dict payloads -/

theorem requiredFieldStep_dict (kvs : List (List Char × PyVal)) (k : List Char) (fb : PyVal) :
    requiredFieldStep (PyVal.dict kvs) k fb =
      Except.ok (PyVal.dict (if dictHasKey kvs k then kvs else dictSetKey kvs k fb)) := by
  unfold requiredFieldStep pyContainsStr pySetItemStr
  by_cases h : dictHasKey kvs k
  · simp [h]
  · simp [h]

/-- The entries of a dict payload after the required-fields loop. -/
def ensuredKvs (kvs : List (List Char × PyVal)) : List (List Char × PyVal) :=
  let kvs1 := if dictHasKey kvs tlKey then kvs else dictSetKey kvs tlKey (PyVal.list [])
  if dictHasKey kvs1 csKey then kvs1 else dictSetKey kvs1 csKey (PyVal.str fallbackSummaryChars)

theorem ensureRequiredFields_dict (kvs : List (List Char × PyVal)) :
    ensureRequiredFields (PyVal.dict kvs) = Except.ok (PyVal.dict (ensuredKvs kvs)) := by
  unfold ensureRequiredFields ensuredKvs
  rw [requiredFieldStep_dict]
  dsimp only
  rw [requiredFieldStep_dict]

theorem ensuredKvs_hasKey_tl (kvs : List (List Char × PyVal)) :
    dictHasKey (ensuredKvs kvs) tlKey = true := by
  unfold ensuredKvs
  have h1 : dictHasKey (if dictHasKey kvs tlKey then kvs
      else dictSetKey kvs tlKey (PyVal.list [])) tlKey = true := by
    by_cases h : dictHasKey kvs tlKey
    · rw [if_pos h]; exact h
    · rw [if_neg h]; exact dictHasKey_setKey_self kvs tlKey (PyVal.list [])
  by_cases h2 : dictHasKey (if dictHasKey kvs tlKey then kvs
      else dictSetKey kvs tlKey (PyVal.list [])) csKey
  · rw [if_pos h2]; exact h1
  · rw [if_neg h2]
    rw [dictHasKey_setKey_of_ne _ _ _ _ (by decide : tlKey ≠ csKey)]
    exact h1

theorem ensuredKvs_hasKey_cs (kvs : List (List Char × PyVal)) :
    dictHasKey (ensuredKvs kvs) csKey = true := by
  unfold ensuredKvs
  by_cases h2 : dictHasKey (if dictHasKey kvs tlKey then kvs
      else dictSetKey kvs tlKey (PyVal.list [])) csKey
  · rw [if_pos h2]; exact h2
  · rw [if_neg h2]; exact dictHasKey_setKey_self _ csKey _

theorem ensuredKvs_lookup_tl (kvs : List (List Char × PyVal)) :
    dictLookup (ensuredKvs kvs) tlKey =
      (if dictHasKey kvs tlKey then dictLookup kvs tlKey
       else Option.some (PyVal.list [])) := by
  unfold ensuredKvs
  have h1 : dictLookup (if dictHasKey kvs tlKey then kvs
      else dictSetKey kvs tlKey (PyVal.list [])) tlKey =
      (if dictHasKey kvs tlKey then dictLookup kvs tlKey
       else Option.some (PyVal.list [])) := by
    by_cases h : dictHasKey kvs tlKey
    · rw [if_pos h, if_pos h]
    · rw [if_neg h, if_neg h]; exact dictLookup_setKey_self kvs tlKey (PyVal.list [])
  by_cases h2 : dictHasKey (if dictHasKey kvs tlKey then kvs
      else dictSetKey kvs tlKey (PyVal.list [])) csKey
  · rw [if_pos h2]; exact h1
  · rw [if_neg h2]
    rw [dictLookup_setKey_of_ne _ _ _ _ (by decide : tlKey ≠ csKey)]
    exact h1

theorem dictLookup_isSome_of_hasKey (kvs : List (List Char × PyVal)) (k : List Char)
    (h : dictHasKey kvs k = true) : ∃ w, dictLookup kvs k = Option.some w := by
  induction kvs with
  | nil => simp [dictHasKey] at h
  | cons a as ih =>
    by_cases ha : a.1 = k
    · exact ⟨a.2, by rw [dictLookup, List.find?_cons_of_pos _ (by simpa using ha)]; rfl⟩
    · rw [dictHasKey, List.any_cons] at h
      simp only [Bool.or_eq_true, decide_eq_true_eq] at h
      rcases h with h | h
      · exact absurd h ha
      · obtain ⟨w, hw⟩ := ih h
        refine ⟨w, ?_⟩
        rw [dictLookup, List.find?_cons_of_neg _ (by simpa using ha)]
        exact hw

/-! ## Behaviour of the post-processing on each shape of recovered value -/

theorem dictHasKey_of_lookup_some (kvs : List (List Char × PyVal)) (k : List Char)
    (w : PyVal) (h : dictLookup kvs k = Option.some w) : dictHasKey kvs k = true := by
  by_contra hk
  have hnone : kvs.find? (fun kv => decide (kv.1 = k)) = Option.none := by
    rw [List.find?_eq_none]
    intro x hx hpx
    exact hk (by rw [dictHasKey, List.any_eq_true]; exact ⟨x, hx, by simpa using hpx⟩)
  rw [dictLookup, hnone] at h
  cases h

theorem parseSuccessPath_nondict (v : PyVal) (hv : v.isDict = false) (n : ℕ) (D : ℚ)
    (N : ℕ) : ∃ e, parseSuccessPath v n D N = Except.error e := by
  cases v with
  | dict kvs => simp [PyVal.isDict] at hv
  | str s2 =>
    unfold parseSuccessPath ensureRequiredFields requiredFieldStep pyContainsStr
      pySetItemStr pyDictGetD
    cases hc1 : containsSub s2 tlKey <;> cases hc2 : containsSub s2 csKey <;>
      simp [hc1, hc2]
  | list xs =>
    unfold parseSuccessPath ensureRequiredFields requiredFieldStep pyContainsStr
      pySetItemStr pyDictGetD
    cases hc1 : listContainsStr xs tlKey <;> cases hc2 : listContainsStr xs csKey <;>
      simp [hc1, hc2]
  | none => exact ⟨PyErr.typeError, rfl⟩
  | bool b => exact ⟨PyErr.typeError, rfl⟩
  | int m => exact ⟨PyErr.typeError, rfl⟩
  | float q => exact ⟨PyErr.typeError, rfl⟩

theorem parseSuccessPath_dict (kvs : List (List Char × PyVal)) (n : ℕ) (D : ℚ)
    (N : ℕ) (hN : N ≠ 0) :
    parseSuccessPath (PyVal.dict kvs) n D N =
      normalizeWith (PyVal.dict (ensuredKvs kvs))
        (dictGetD (ensuredKvs kvs) tlKey (PyVal.list [])) n N D := by
  unfold parseSuccessPath
  rw [ensureRequiredFields_dict]
  dsimp only
  unfold pyDictGetD
  dsimp only
  rw [if_neg hN]

theorem parseSuccessPath_dict_zero (kvs : List (List Char × PyVal)) (n : ℕ) (D : ℚ) :
    parseSuccessPath (PyVal.dict kvs) n D 0 = Except.error PyErr.zeroDivisionError := by
  unfold parseSuccessPath
  rw [ensureRequiredFields_dict]
  dsimp only
  unfold pyDictGetD
  dsimp only
  rw [if_pos rfl]

theorem parseSuccessPath_ok_keys (v p : PyVal) (n : ℕ) (D : ℚ) (N : ℕ)
    (h : parseSuccessPath v n D N = Except.ok p) :
    hasKeyC p tlKey = true ∧ hasKeyC p csKey = true := by
  cases hv : v.isDict
  case false =>
    obtain ⟨e, he⟩ := parseSuccessPath_nondict v hv n D N
    rw [he] at h
    cases h
  case true =>
    cases v with
    | dict kvs =>
      cases hN : N with
      | zero =>
        rw [hN, parseSuccessPath_dict_zero] at h
        cases h
      | succ m =>
        rw [parseSuccessPath_dict kvs n D N (by omega)] at h
        unfold normalizeWith at h
        cases hev : dictGetD (ensuredKvs kvs) tlKey (PyVal.list []) with
        | list xs =>
          rw [hev] at h
          injection h with hp
          subst hp
          unfold pySetKeyTotal hasKeyC
          dsimp only
          constructor
          · exact dictHasKey_setKey_self _ tlKey _
          · rw [dictHasKey_setKey_of_ne _ _ _ _ (by decide : csKey ≠ tlKey)]
            exact ensuredKvs_hasKey_cs kvs
        | str s2 =>
          rw [hev] at h
          injection h with hp
          subst hp
          exact ⟨ensuredKvs_hasKey_tl kvs, ensuredKvs_hasKey_cs kvs⟩
        | dict kvs2 =>
          rw [hev] at h
          injection h with hp
          subst hp
          exact ⟨ensuredKvs_hasKey_tl kvs, ensuredKvs_hasKey_cs kvs⟩
        | none => rw [hev] at h; cases h
        | bool b => rw [hev] at h; cases h
        | int m2 => rw [hev] at h; cases h
        | float q => rw [hev] at h; cases h
    | none => simp [PyVal.isDict] at hv
    | bool b => simp [PyVal.isDict] at hv
    | int m => simp [PyVal.isDict] at hv
    | float q => simp [PyVal.isDict] at hv
    | str s2 => simp [PyVal.isDict] at hv
    | list xs => simp [PyVal.isDict] at hv

theorem parseSuccessPath_error_bad (v : PyVal) (n : ℕ) (D : ℚ) (N : ℕ) (hN : N ≠ 0)
    (e : PyErr) (h : parseSuccessPath v n D N = Except.error e) :
    goodRecovered v = false := by
  cases v with
  | dict kvs =>
    rw [parseSuccessPath_dict kvs n D N hN] at h
    unfold normalizeWith at h
    unfold goodRecovered
    dsimp only
    rcases hl : dictLookup kvs tlKey with _ | w
    · exfalso
      have hhk : dictHasKey kvs tlKey = false := by
        cases hhk2 : dictHasKey kvs tlKey
        · rfl
        · obtain ⟨w, hw⟩ := dictLookup_isSome_of_hasKey kvs tlKey hhk2
          rw [hl] at hw
          cases hw
      have hev : dictGetD (ensuredKvs kvs) tlKey (PyVal.list []) = PyVal.list [] := by
        unfold dictGetD
        rw [ensuredKvs_lookup_tl, if_neg (by simp [hhk])]
        rfl
      rw [hev] at h
      cases h
    · have hhk : dictHasKey kvs tlKey = true := dictHasKey_of_lookup_some kvs tlKey w hl
      have hev : dictGetD (ensuredKvs kvs) tlKey (PyVal.list []) = w := by
        unfold dictGetD
        rw [ensuredKvs_lookup_tl, if_pos hhk, hl]
        rfl
      rw [hev] at h
      dsimp only
      cases w with
      | none => rfl
      | bool b => rfl
      | int m => rfl
      | float q => rfl
      | str s2 => cases h
      | list xs => cases h
      | dict kvs2 => cases h
  | none => rfl
  | bool b => rfl
  | int m => rfl
  | float q => rfl
  | str s2 => rfl
  | list xs => rfl

/-- C1: amended. For every raw response and `total_chunks > 0`,
`_parse_chunk_response` either returns a payload dict carrying both
`timeline_events` and `chunk_summary` (defaulting missing ones to `[]` and the
fallback summary), or raises; it raises exactly when a recovery strategy
produced a value the post-processing rejects (a non-dict JSON value, or a
`timeline_events` value that is not iterable), so the original claim's
"never propagates an exception for any recovered value" does not hold:
valid non-object JSON such as `[1,2]` is recovered by a strategy and then
raises `TypeError`. -/
theorem c1_required_fields_amended (s : String) (n N : ℕ) (D : ℚ) (hN : 0 < N) :
    (∀ p, parseChunkResponse s n D N = Except.ok p →
      hasKeyC p tlKey = true ∧ hasKeyC p csKey = true) ∧
    (∀ e, parseChunkResponse s n D N = Except.error e →
      ∃ v, tryParseJsonMultipleStrategies (preprocessResponseText s.data) = Option.some v ∧
        goodRecovered v = false) := by
  have hN' : N ≠ 0 := by omega
  unfold parseChunkResponse parseChunkResponseCore
  dsimp only
  cases hstrat : tryParseJsonMultipleStrategies (preprocessResponseText s.data) with
  | none =>
    constructor
    · intro p hp
      dsimp only at hp
      rw [if_neg hN'] at hp
      injection hp with hp1
      subst hp1
      constructor <;>
        simp [jsonDecodeFallbackPayload, hasKeyC, dictHasKey]
    · intro e he
      dsimp only at he
      rw [if_neg hN'] at he
      cases he
  | some v =>
    constructor
    · intro p hp
      exact parseSuccessPath_ok_keys v p n D N hp
    · intro e he
      exact ⟨v, rfl, parseSuccessPath_error_bad v n D N hN' e he⟩

/-! ## Index lemmas for the normalization loop -/

theorem mapIdxFrom_getElem? {α β : Type} (f : ℕ → α → β) :
    ∀ (l : List α) (k i : ℕ), (mapIdxFrom f k l)[i]? = (l[i]?).map (f (k + i))
  | [], _, i => by simp [mapIdxFrom]
  | a :: as, k, 0 => by simp [mapIdxFrom]
  | a :: as, k, i + 1 => by
    have ih := mapIdxFrom_getElem? f as (k + 1) i
    simp only [mapIdxFrom, List.getElem?_cons_succ, ih]
    rw [show k + 1 + i = k + (i + 1) from by omega]

theorem lookup_ts_of_two_sets (kvs : List (List Char × PyVal)) (a b : PyVal) :
    dictLookup (dictSetKey (dictSetKey kvs tsKey a) durKey b) tsKey = Option.some a := by
  rw [dictLookup_setKey_of_ne _ _ _ _ (by decide : tsKey ≠ durKey), dictLookup_setKey_self]

theorem normalizeEvent_dict (chunkStart spacing : ℚ) (n i : ℕ)
    (kvs : List (List Char × PyVal)) :
    ∃ kvs2, normalizeEvent chunkStart spacing n i (PyVal.dict kvs) = PyVal.dict kvs2 ∧
      dictLookup kvs2 tsKey =
        Option.some (PyVal.float (chunkStart + (i : ℚ) * spacing)) ∧
      dictLookup kvs2 durKey =
        Option.some (PyVal.float (min (spacing * (4 / 5)) 15)) := by
  unfold normalizeEvent
  dsimp only
  refine ⟨_, rfl, ?_, ?_⟩
  · split_ifs <;>
      simp only [dictLookup_setKey_of_ne _ ctKey tsKey _ (by decide : tsKey ≠ ctKey),
        dictLookup_setKey_of_ne _ etKey tsKey _ (by decide : tsKey ≠ etKey),
        lookup_ts_of_two_sets]
  · split_ifs <;>
      simp only [dictLookup_setKey_of_ne _ ctKey durKey _ (by decide : durKey ≠ ctKey),
        dictLookup_setKey_of_ne _ etKey durKey _ (by decide : durKey ≠ etKey),
        dictLookup_setKey_self]

/-- C3: for total duration `D > 0`, `1 ≤ n ≤ N`, every dict event at index `i`
of the `k` events handed to the timing-normalization loop is rewritten with
`timestamp = (n-1)*(D/N) + i*((D/N)/k)` and
`duration = min(spacing*0.8, 15)` (so any LLM-proposed timestamp/duration is
discarded), that timestamp lies in `[((n-1)/N)*D, (n/N)*D)`, timestamps are
monotonically non-decreasing in the index, and consecutive chunks tile `D`
exactly: `chunkStart(n+1) = chunkStart(n) + D/N`. -/
theorem c3_timing_normalization (events : List PyVal) (n N : ℕ) (D : ℚ)
    (hD : 0 < D) (hn : 1 ≤ n) (hnN : n ≤ N) :
    (∀ (i : ℕ) kvs, events[i]? = Option.some (PyVal.dict kvs) →
      ∃ kvs2, (normalizeEventsList events n N D)[i]? = Option.some (PyVal.dict kvs2) ∧
        dictLookup kvs2 tsKey = Option.some (PyVal.float
          (((n : ℚ) - 1) * (D / (N : ℚ)) +
            (i : ℚ) * ((D / (N : ℚ)) / (events.length : ℚ)))) ∧
        dictLookup kvs2 durKey = Option.some (PyVal.float
          (min (((D / (N : ℚ)) / (events.length : ℚ)) * (4 / 5)) 15)) ∧
        (((n : ℚ) - 1) / (N : ℚ)) * D ≤
          ((n : ℚ) - 1) * (D / (N : ℚ)) +
            (i : ℚ) * ((D / (N : ℚ)) / (events.length : ℚ)) ∧
        ((n : ℚ) - 1) * (D / (N : ℚ)) +
            (i : ℚ) * ((D / (N : ℚ)) / (events.length : ℚ)) <
          ((n : ℚ) / (N : ℚ)) * D) ∧
    (∀ i j : ℕ, i ≤ j →
      ((n : ℚ) - 1) * (D / (N : ℚ)) +
          (i : ℚ) * ((D / (N : ℚ)) / ((max 1 events.length : ℕ) : ℚ)) ≤
        ((n : ℚ) - 1) * (D / (N : ℚ)) +
          (j : ℚ) * ((D / (N : ℚ)) / ((max 1 events.length : ℕ) : ℚ))) ∧
    (((n + 1 : ℕ) : ℚ) - 1) * (D / (N : ℚ)) =
      ((n : ℚ) - 1) * (D / (N : ℚ)) + D / (N : ℚ) := by
  have hN0 : (0 : ℚ) < (N : ℚ) := by exact_mod_cast (by omega : 0 < N)
  have hC : (0 : ℚ) < D / (N : ℚ) := div_pos hD hN0
  refine ⟨?_, ?_, ?_⟩
  · intro i kvs hi
    have hlen : i < events.length := by
      by_contra hcon
      rw [List.getElem?_eq_none (by omega)] at hi
      exact Option.noConfusion hi
    have hlen1 : 1 ≤ events.length := by omega
    have hmax : max 1 events.length = events.length := by omega
    have hk0 : (0 : ℚ) < (events.length : ℚ) := by
      exact_mod_cast (by omega : 0 < events.length)
    have hsp : (0 : ℚ) < (D / (N : ℚ)) / (events.length : ℚ) := div_pos hC hk0
    unfold normalizeEventsList
    dsimp only
    rw [hmax, mapIdxFrom_getElem?, hi]
    obtain ⟨kvs2, hEv, hts, hdur⟩ :=
      normalizeEvent_dict (((n : ℚ) - 1) * (D / (N : ℚ)))
        ((D / (N : ℚ)) / (events.length : ℚ)) n (0 + i) kvs
    refine ⟨kvs2, ?_, ?_, ?_, ?_, ?_⟩
    · rw [Option.map_some', hEv]
    · rw [hts]
      simp only [Nat.zero_add]
    · rw [hdur]
    · have e1 : ((n : ℚ) - 1) / (N : ℚ) * D = ((n : ℚ) - 1) * (D / (N : ℚ)) := by
        ring
      rw [e1]
      exact le_add_of_nonneg_right (mul_nonneg (Nat.cast_nonneg i) (le_of_lt hsp))
    · have hi1 : (i : ℚ) ≤ (events.length : ℚ) - 1 := by
        have : (i : ℚ) + 1 ≤ (events.length : ℚ) := by exact_mod_cast hlen
        linarith
      have key : ((events.length : ℚ) - 1) * ((D / (N : ℚ)) / (events.length : ℚ)) =
          D / (N : ℚ) - (D / (N : ℚ)) / (events.length : ℚ) := by
        field_simp
        ring
      have h2 : (i : ℚ) * ((D / (N : ℚ)) / (events.length : ℚ)) ≤
          D / (N : ℚ) - (D / (N : ℚ)) / (events.length : ℚ) := by
        calc (i : ℚ) * ((D / (N : ℚ)) / (events.length : ℚ)) ≤
            ((events.length : ℚ) - 1) * ((D / (N : ℚ)) / (events.length : ℚ)) :=
              mul_le_mul_of_nonneg_right hi1 (le_of_lt hsp)
          _ = D / (N : ℚ) - (D / (N : ℚ)) / (events.length : ℚ) := key
      have e2 : (n : ℚ) / (N : ℚ) * D = ((n : ℚ) - 1) * (D / (N : ℚ)) + D / (N : ℚ) := by
        ring
      rw [e2]
      linarith
  · intro i j hij
    have hspn : (0 : ℚ) ≤ (D / (N : ℚ)) / ((max 1 events.length : ℕ) : ℚ) :=
      div_nonneg (le_of_lt hC) (Nat.cast_nonneg _)
    have hij' : (i : ℚ) ≤ (j : ℚ) := by exact_mod_cast hij
    exact add_le_add_left (mul_le_mul_of_nonneg_right hij' hspn) _
  · push_cast
    ring

/-- C3 witness: the theorem applied to one dict event with `n = 1`, `N = 2`,
`D = 60`: the rewritten timestamp is `0` and lies in `[0, 30)`. -/
theorem c3_witness :
    ∃ kvs2, (normalizeEventsList [PyVal.dict []] 1 2 60)[0]? = Option.some (PyVal.dict kvs2) ∧
      dictLookup kvs2 tsKey = Option.some (PyVal.float
        ((((1 : ℕ) : ℚ) - 1) * (60 / ((2 : ℕ) : ℚ)) +
          ((0 : ℕ) : ℚ) * ((60 / ((2 : ℕ) : ℚ)) / (([PyVal.dict []] : List PyVal).length : ℚ)))) ∧
      dictLookup kvs2 durKey = Option.some (PyVal.float
        (min (((60 / ((2 : ℕ) : ℚ)) / (([PyVal.dict []] : List PyVal).length : ℚ)) * (4 / 5)) 15)) ∧
      ((((1 : ℕ) : ℚ) - 1) / ((2 : ℕ) : ℚ)) * 60 ≤
        (((1 : ℕ) : ℚ) - 1) * (60 / ((2 : ℕ) : ℚ)) +
          ((0 : ℕ) : ℚ) * ((60 / ((2 : ℕ) : ℚ)) / (([PyVal.dict []] : List PyVal).length : ℚ)) ∧
      (((1 : ℕ) : ℚ) - 1) * (60 / ((2 : ℕ) : ℚ)) +
          ((0 : ℕ) : ℚ) * ((60 / ((2 : ℕ) : ℚ)) / (([PyVal.dict []] : List PyVal).length : ℚ)) <
        (((1 : ℕ) : ℚ) / ((2 : ℕ) : ℚ)) * 60 :=
  (c3_timing_normalization [PyVal.dict []] 1 2 60 (by norm_num) (by norm_num)
    (by norm_num)).1 0 [] rfl

/-- C1 witness: on the input `"\x7b\x7d"` (an empty JSON object) with
`chunk_number = 1`, `total_chunks = 3 > 0` and `target_duration = 120`, the
parser returns the payload with the two required keys defaulted, and both keys
are present. -/
theorem c1_witness :
    hasKeyC (PyVal.dict [(tlKey, PyVal.list []), (csKey, PyVal.str fallbackSummaryChars)])
        tlKey = true ∧
      hasKeyC (PyVal.dict [(tlKey, PyVal.list []), (csKey, PyVal.str fallbackSummaryChars)])
        csKey = true :=
  (c1_required_fields_amended "\x7b\x7d" 1 3 120 (by norm_num)).1 _ (by rfl)

/-- C1 counterexample: the syntactically valid JSON input `[1,2]` (a non-object
value) is recovered by the direct-parse strategy and then raises `TypeError`
out of `_parse_chunk_response` (iterating `"timeline_events"` over a list at
`any(...)`), refuting "never raises an exception to its caller". -/
theorem c1_counterexample :
    errOf (parseChunkResponse "[1,2]" 1 120 3) = Option.some PyErr.typeError := by decide

/-- C2: the divergence exhibited. With global duration `D = 120`, `N = 4`
chunks and a MEDIUM recommendation (`target_duration = 30`,
`estimated_chunks_needed = 4`), the per-chunk config duration is `30`;
`generate_chunk` for chunk `n = 2` passes that per-chunk `30` — not the global
`D = 120` — to `_parse_chunk_response`, so the successfully produced chunk's
single event gets timestamp `(2-1)*(30/4) = 7.5`, which does not lie in chunk
2's global slice `[((2-1)/4)*120, (2/4)*120) = [30, 60)`. -/
theorem c2_duration_bug :
    chunkConfigDuration 30 120 4 = 30 ∧
    (recommendChunkSize (uniformMetrics (1 / 2)) ContentType.DEFINITION Option.none
      (Option.some 120)).target_duration = 30 ∧
    (recommendChunkSize (uniformMetrics (1 / 2)) ContentType.DEFINITION Option.none
      (Option.some 120)).estimated_chunks_needed = 4 ∧
    (generateChunkModel "c2" 0 (Option.some c5Input)
      (ChunkGenerationConfig.mk 800 (chunkConfigDuration 30 120 4) ContentType.DEFINITION
        DifficultyLevel.BEGINNER true true) 2 4).status = GenerationStatus.COMPLETED ∧
    floatOfPy (chunkResultEventField (generateChunkModel "c2" 0 (Option.some c5Input)
      (ChunkGenerationConfig.mk 800 (chunkConfigDuration 30 120 4) ContentType.DEFINITION
        DifficultyLevel.BEGINNER true true) 2 4) 0 tsKey) = Option.some (15 / 2) ∧
    ¬(((2 : ℚ) - 1) / 4 * 120 ≤ 15 / 2 ∧ (15 / 2 : ℚ) < (2 : ℚ) / 4 * 120) := by decide

/-- C4: the exception handler of `analyze_and_plan_chunks` does not return the
hardcoded fallback: its first statement evaluates `self.chunk_sizer.ChunkSize`,
but `ChunkSize` is a module-level class of `adaptive_chunk_sizer.py` and not an
attribute of the `AdaptiveChunkSizer` instance, so for every caught exception
the handler itself raises `AttributeError` and the run fails instead of
proceeding. -/
theorem c4_fallback_attribute_error (e : PyErr) (ct : ContentType) (d : DifficultyLevel) :
    analyzeAndPlanChunksModel (Except.error e) ct d =
      Except.error PyErr.attributeError := by
  cases e <;> rfl

/-- C5: parsing the exact input
`'\x7b"timeline_events":[\x7b"content":"A"\x7d],"chunk_summary":"s"\x7d'` with
`chunk_number = 2`, `target_duration = 120` and `total_chunks = 4` returns a
payload with exactly one timeline event, whose timestamp is `30.0` and whose
duration is `min(30.0*0.8, 15.0) = 15.0`. -/
theorem c5_exact_json_scenario :
    resultEventCount (parseChunkResponse c5Input 2 120 4) = Option.some 1 ∧
    floatOfPy (eventField (resultEvent (parseChunkResponse c5Input 2 120 4) 0) tsKey) =
      Option.some 30 ∧
    floatOfPy (eventField (resultEvent (parseChunkResponse c5Input 2 120 4) 0) durKey) =
      Option.some 15 ∧
    min ((30 : ℚ) * (8 / 10)) 15 = 15 := by decide

/-- C6: amended. In `recommend_chunk_size` the token estimate takes precedence
over the duration: when `total_estimated_content` is truthy the estimate is
`max(1, tokens // target_tokens)`; otherwise, when `total_duration` is truthy,
it is `max(1, int(duration / target_duration))` — `int()` truncation toward
zero, not `round` as claimed; otherwise it is 5, 3 or 2 by the raw
(non-type-adjusted) `overall_complexity`; in every case it is at least 1. -/
theorem c6_chunk_count_amended (m : ComplexityMetrics) (ct : ContentType)
    (tokens : Option ℤ) (dur : Option ℚ) :
    (intOptTruthy tokens = true →
      (recommendChunkSize m ct tokens dur).estimated_chunks_needed =
        max 1 (Int.fdiv (tokens.getD 0)
          (bandTargetTokens (m.overall_complexity * contentTypeFactor ct)))) ∧
    (intOptTruthy tokens = false → ratOptTruthy dur = true →
      (recommendChunkSize m ct tokens dur).estimated_chunks_needed =
        max 1 (pyIntTrunc ((dur.getD 0) /
          bandTargetDuration (m.overall_complexity * contentTypeFactor ct)))) ∧
    (intOptTruthy tokens = false → ratOptTruthy dur = false →
      (recommendChunkSize m ct tokens dur).estimated_chunks_needed =
        (if 7 / 10 < m.overall_complexity then 5
         else if 4 / 10 < m.overall_complexity then 3 else 2)) ∧
    1 ≤ (recommendChunkSize m ct tokens dur).estimated_chunks_needed := by
  unfold recommendChunkSize
  dsimp only
  refine ⟨?_, ?_, ?_, ?_⟩
  · intro h
    rw [if_pos h]
  · intro h1 h2
    have hno : ¬ (intOptTruthy tokens = true) := by simp [h1]
    rw [if_neg hno, if_pos h2]
  · intro h1 h2
    have hno : ¬ (intOptTruthy tokens = true) := by simp [h1]
    have hno2 : ¬ (ratOptTruthy dur = true) := by simp [h2]
    rw [if_neg hno, if_neg hno2]
  · split_ifs with h1 h2 h3 h4
    · exact le_max_left 1 _
    · exact le_max_left 1 _
    · norm_num
    · norm_num
    · norm_num

/-- C6 witness: with all complexity scores `0.3` (LARGE band,
`target_duration = 45`) and `total_duration = 120`, the estimate is
`max(1, int(120/45)) = 2`, matching the truncation branch. -/
theorem c6_witness :
    (recommendChunkSize (uniformMetrics (3 / 10)) ContentType.DEFINITION Option.none
        (Option.some 120)).estimated_chunks_needed =
      max 1 (pyIntTrunc ((120 : ℚ) /
        bandTargetDuration ((uniformMetrics (3 / 10)).overall_complexity *
          contentTypeFactor ContentType.DEFINITION))) :=
  (c6_chunk_count_amended (uniformMetrics (3 / 10)) ContentType.DEFINITION Option.none
    (Option.some 120)).2.1 (by decide) (by decide)

/-- C6 counterexample: same input (`overall_complexity = 0.3`,
`total_duration = 120`, target duration 45): the code's estimate is
`max(1, int(120/45)) = 2`, while the claimed `max(1, round(120/45)) = 3`. -/
theorem c6_counterexample :
    (recommendChunkSize (uniformMetrics (3 / 10)) ContentType.DEFINITION Option.none
      (Option.some 120)).estimated_chunks_needed = 2 ∧
    max 1 (pyRound ((120 : ℚ) / (recommendChunkSize (uniformMetrics (3 / 10))
      ContentType.DEFINITION Option.none (Option.some 120)).target_duration)) = 3 ∧
    (2 : ℤ) ≠ 3 := by decide

/-- C7: amended. The size category is selected from the type-adjusted score
`overall_complexity * content_factor`, so the 0.3/0.5/0.8 progression does not
give LARGE/MEDIUM/SMALL for every content type (see the counterexample); what
does hold universally is the second part of the claim: for every fixed content
type and optional token/duration arguments, `target_duration` is non-increasing
in `overall_complexity`. -/
theorem c7_target_duration_antitone (m1 m2 : ComplexityMetrics) (ct : ContentType)
    (tokens : Option ℤ) (dur : Option ℚ)
    (h : m1.overall_complexity ≤ m2.overall_complexity) :
    (recommendChunkSize m2 ct tokens dur).target_duration ≤
      (recommendChunkSize m1 ct tokens dur).target_duration := by
  unfold recommendChunkSize
  dsimp only
  have hf : 0 < contentTypeFactor ct := by cases ct <;> norm_num [contentTypeFactor]
  have hadj : m1.overall_complexity * contentTypeFactor ct ≤
      m2.overall_complexity * contentTypeFactor ct :=
    mul_le_mul_of_nonneg_right h (le_of_lt hf)
  unfold bandTargetDuration
  split_ifs <;> linarith

/-- C7 witness: raising all scores from 0.3 to 0.8 on DEFINITION content does
not increase the recommended `target_duration`. -/
theorem c7_witness :
    (recommendChunkSize (uniformMetrics (8 / 10)) ContentType.DEFINITION Option.none
        Option.none).target_duration ≤
      (recommendChunkSize (uniformMetrics (3 / 10)) ContentType.DEFINITION Option.none
        Option.none).target_duration :=
  c7_target_duration_antitone (uniformMetrics (3 / 10)) (uniformMetrics (8 / 10))
    ContentType.DEFINITION Option.none Option.none (by decide)

/-- C7 counterexample: for DEFINITION content (factor 0.8) an
`overall_complexity` of 0.8 gives adjusted score `0.64 < 0.7`, hence MEDIUM,
not the claimed SMALL. -/
theorem c7_counterexample :
    (recommendChunkSize (uniformMetrics (8 / 10)) ContentType.DEFINITION Option.none
      Option.none).chunk_size = ChunkSize.MEDIUM ∧
    ChunkSize.MEDIUM ≠ ChunkSize.SMALL := by decide

/-- C8: in a 3-chunk run of the orchestrator loop where chunk 1 completed and
chunk 2 did not, the `continuity_context` passed to chunk 3's generation (and
hence to its prompt) is the one produced from chunk 1's result; the failed
chunk 2 never replaces it. -/
theorem c8_failed_chunk_keeps_context (r1 r2 r3 : ChunkGenerationResult)
    (cfgs : List ChunkGenerationConfig)
    (h1 : r1.status = GenerationStatus.COMPLETED)
    (h2 : r2.status ≠ GenerationStatus.COMPLETED) :
    contextsPassed [r1, r2, r3] cfgs =
      [Option.none, Option.some (mkContinuityFromResult r1 cfgs 0),
       Option.some (mkContinuityFromResult r1 cfgs 0)] := by
  simp only [contextsPassed, contextsPassedAux, contextAfterChunk]
  rw [if_neg h2, if_pos h1]

/-- C8 witness: a concrete COMPLETED first chunk followed by two FAILED chunks:
both later chunks receive chunk 1's context. -/
theorem c8_witness :
    contextsPassed [completedResultExample, failedChunkResult "c2" 2 0 "m",
        failedChunkResult "c3" 3 0 "m"] [] =
      [Option.none, Option.some (mkContinuityFromResult completedResultExample [] 0),
       Option.some (mkContinuityFromResult completedResultExample [] 0)] :=
  c8_failed_chunk_keeps_context completedResultExample (failedChunkResult "c2" 2 0 "m")
    (failedChunkResult "c3" 3 0 "m") [] rfl (by decide)

/-- C9: amended. `_generate_break_points` returns `template[:chunk_count]`:
exactly `min(k, 5)` labels (each content type's template has 5 entries), all
drawn in order from that template; for `k > 5` nothing is repeated to reach
`k`, so the list has fewer than `k` labels. -/
theorem c9_break_points_amended (ct : ContentType) (k : ℕ) :
    (generateBreakPoints ct k).length = min k (breakPointTemplate ct).length ∧
    (breakPointTemplate ct).length = 5 ∧
    ∀ s ∈ generateBreakPoints ct k, s ∈ breakPointTemplate ct := by
  unfold generateBreakPoints
  exact ⟨List.length_take _ _, by cases ct <;> rfl, fun s hs => List.take_subset _ _ hs⟩

/-- C9 counterexample: for DEFINITION content and `k = 6` estimated chunks the
break-point list has only 5 labels, not the claimed 6. -/
theorem c9_counterexample :
    (generateBreakPoints ContentType.DEFINITION 6).length = 5 ∧ (5 : ℕ) ≠ 6 := by decide

theorem mem_cacheInsert (cache : List (String × ChunkGenerationResult)) (k : String)
    (r : ChunkGenerationResult) (kv : String × ChunkGenerationResult)
    (h : kv ∈ cacheInsert cache k r) : kv ∈ cache ∨ kv = (k, r) := by
  unfold cacheInsert at h
  split at h
  · obtain ⟨kv0, hkv0, hf⟩ := List.mem_map.mp h
    by_cases hc : kv0.1 = k
    · right
      rw [← hf, if_pos hc]
    · left
      rw [← hf, if_neg hc]
      exact hkv0
  · rcases List.mem_append.mp h with h1 | h1
    · exact Or.inl h1
    · right
      simpa using h1

/-- C10: on every `generation_cache` state reachable from the empty cache by
`generate_chunk` calls, every stored result has status COMPLETED (a FAILED
result is returned but never cached), and whenever the cache is non-empty
`get_generation_stats` reports `successful_chunks = total_chunks_generated`
and `success_rate` exactly 1. -/
theorem c10_cache_stats (cache : List (String × ChunkGenerationResult))
    (h : CacheReachable cache) :
    (∀ kv ∈ cache, kv.2.status = GenerationStatus.COMPLETED) ∧
    (cache ≠ [] → ∃ t avgT avgC,
      getGenerationStats cache = StatsReport.report t t 1 avgT avgC cache.length) := by
  have part1 : ∀ kv ∈ cache, kv.2.status = GenerationStatus.COMPLETED := by
    induction h with
    | nil => intro kv hkv; simp at hkv
    | step cache0 chunkId gtime responseText cfg chunkNumber totalChunks hreach ih =>
      intro kv hkv
      unfold generateChunkAndCache at hkv
      dsimp only at hkv
      split at hkv
      case isTrue hst =>
        dsimp only at hkv
        rcases mem_cacheInsert _ _ _ _ hkv with h' | h'
        · exact ih kv h'
        · rw [h']
          exact hst
      case isFalse hst =>
        dsimp only at hkv
        exact ih kv hkv
  refine ⟨part1, ?_⟩
  intro hne
  have hall : ∀ r ∈ cache.map (fun kv => kv.2), r.status = GenerationStatus.COMPLETED := by
    intro r hr
    obtain ⟨kv, hkv, hrkv⟩ := List.mem_map.mp hr
    rw [← hrkv]
    exact part1 kv hkv
  have hfilter : (cache.map (fun kv => kv.2)).filter
      (fun r => decide (r.status = GenerationStatus.COMPLETED)) =
      cache.map (fun kv => kv.2) := by
    apply List.filter_eq_self.mpr
    intro r hr
    exact decide_eq_true (hall r hr)
  have hpos : 0 < cache.length := List.length_pos.mpr hne
  have hne2 : ¬ ((cache.map (fun kv => kv.2)).isEmpty = true) := by
    intro hEmp
    rw [List.isEmpty_iff] at hEmp
    exact hne (List.map_eq_nil_iff.mp hEmp)
  have hstats : getGenerationStats cache =
      StatsReport.report cache.length cache.length 1
        (((cache.map (fun kv => kv.2)).map (fun r => r.generation_time)).sum /
          ((cache.length : ℕ) : ℚ))
        (((((cache.map (fun kv => kv.2)).map (fun r => r.token_count)).sum : ℤ) : ℚ) /
          ((cache.length : ℕ) : ℚ))
        cache.length := by
    unfold getGenerationStats
    dsimp only
    rw [hfilter, if_neg hne2, List.length_map, if_pos hpos,
      div_self (by exact_mod_cast hpos.ne' : ((cache.length : ℚ) ≠ 0))]
  exact ⟨cache.length, _, _, hstats⟩

/-- C10 witness: the one-call cache state of the exact-JSON scenario: its only
entry is COMPLETED and the stats report equal totals with success rate 1. -/
theorem c10_witness :
    (∀ kv ∈ c10CacheExample, kv.2.status = GenerationStatus.COMPLETED) ∧
    (c10CacheExample ≠ [] → ∃ t avgT avgC,
      getGenerationStats c10CacheExample =
        StatsReport.report t t 1 avgT avgC c10CacheExample.length) :=
  c10_cache_stats c10CacheExample
    (CacheReachable.step [] "c" 0 (Option.some c5Input)
      (ChunkGenerationConfig.mk 800 30 ContentType.DEFINITION DifficultyLevel.BEGINNER
        true true) 2 4 CacheReachable.nil)

end AiTutor
